import Mathlib

/-!
# Verification development for the Mach process-control examples

The C programs `simple_attach.c`, `memory_access.c`, `register_access.c` and
`mach_exception.c` are embedded as pure functions from an *environment* to a
*run*.  The environment fixes the command line, the answers of libc and the
outcome of every kernel call, one field per call site (call sites inside a
loop are indexed by the loop counter), so quantifying over environments
quantifies over every behaviour of the kernel.  A run is the ordered list of
observable events of `main` (every `printf`, every libc or kernel call with
its arguments and its result) and the exit status.  Of `pidinfo.c` the function
`print_status` is embedded, as a function of the process record it is given.
-/

/-! ## Constants of the system headers -/

/-- Kernel return code `KERN_SUCCESS` of `<mach/kern_return.h>`. -/
def KERN_SUCCESS : Int := 0

/-- Kernel return code `KERN_INVALID_ARGUMENT` of `<mach/kern_return.h>`. -/
def KERN_INVALID_ARGUMENT : Int := 4

/-- Kernel return code `KERN_FAILURE` of `<mach/kern_return.h>`. -/
def KERN_FAILURE : Int := 5

/-- Size in bytes of `thread_act_t` (a `mach_port_t`, an unsigned 32-bit name). -/
def sizeof_thread_act_t : Nat := 4

/-- Flavor `x86_THREAD_STATE64`, value (4) as quoted in `register_access.c`. -/
def x86_THREAD_STATE64 : Nat := 4

/-- Flavor `ARM_THREAD_STATE64`, value (6) as quoted in `register_access.c`. -/
def ARM_THREAD_STATE64 : Nat := 6

/-- Count `x86_THREAD_STATE64_COUNT`: `sizeof (x86_thread_state64_t) / sizeof (int)`,
twenty-one 64-bit fields. -/
def x86_THREAD_STATE64_COUNT : Nat := 42

/-- Count `ARM_THREAD_STATE64_COUNT`: `sizeof (arm_thread_state64_t) / sizeof (uint32_t)`,
thirty-three 64-bit fields and two 32-bit ones. -/
def ARM_THREAD_STATE64_COUNT : Nat := 68

/-! ## Register snapshots -/

/-- The structure `x86_thread_state64_t` filled by `thread_get_state`. -/
structure x86_thread_state64_t where
  __rax : Nat
  __rbx : Nat
  __rcx : Nat
  __rdx : Nat
  __rdi : Nat
  __rsi : Nat
  __rbp : Nat
  __rsp : Nat
  __r8 : Nat
  __r9 : Nat
  __r10 : Nat
  __r11 : Nat
  __r12 : Nat
  __r13 : Nat
  __r14 : Nat
  __r15 : Nat
  __rip : Nat
  __rflags : Nat
  __cs : Nat
  __fs : Nat
  __gs : Nat
  deriving DecidableEq, Repr

/-- The structure `arm_thread_state64_t` filled by `thread_get_state`; `__x` is the
array of the general registers x0..x28. -/
structure arm_thread_state64_t where
  __x : List Nat
  __fp : Nat
  __lr : Nat
  __sp : Nat
  __pc : Nat
  __cpsr : Nat
  deriving DecidableEq, Repr

/-- A register buffer handed to or returned by the kernel, tagged by its layout. -/
inductive RegState where
  | x86 (s : x86_thread_state64_t)
  | arm (s : arm_thread_state64_t)
  deriving DecidableEq, Repr

/-! ## Events and runs -/

/-- One observable step of a program: output, or a call with arguments and result. -/
inductive Event where
  /-- Text written by `printf`. -/
  | out (s : String)
  /-- Text written by `fprintf (stderr, ...)`. -/
  | err (s : String)
  | proc_pidpath (pid : Int) (ret : Int)
  | getchar
  | fgets (line : Option String)
  | malloc (size : Nat)
  | free
  | task_for_pid (self : Nat) (pid : Int) (kr : Int) (task : Nat)
  | task_suspend (task : Nat) (kr : Int)
  | task_resume (task : Nat) (kr : Int)
  | task_info (task : Nat) (kr : Int) (suspend_count : Int)
  | task_threads (task : Nat) (kr : Int) (thread_list : Nat) (threads : List Nat)
  | mach_port_deallocate (self : Nat) (name : Nat)
  | vm_deallocate (self : Nat) (address : Nat) (size : Nat)
  | mach_vm_read (task : Nat) (address : Nat) (size : Nat) (kr : Int)
      (read_data : Nat) (bytes : List Nat) (read_count : Nat)
  | mach_vm_write (task : Nat) (address : Nat) (data : List Nat) (size : Nat) (kr : Int)
  | thread_get_state (thread : Nat) (flavor : Nat) (count_in : Nat) (kr : Int)
      (state : RegState) (count_out : Nat)
  | thread_set_state (thread : Nat) (flavor : Nat) (state : RegState) (count : Nat) (kr : Int)
  | mach_port_allocate (self : Nat) (right : Nat) (kr : Int) (name : Nat)
  | mach_port_insert_right (self : Nat) (name : Nat) (poly : Nat) (polyType : Nat) (kr : Int)
  | fork (ret : Int)
  | ptrace (request : Nat) (ret : Int)
  | perror (s : String)
  | pause
  | usleep (usec : Nat)
  | task_set_exception_ports (task : Nat) (mask : Nat) (port : Nat) (behavior : Nat)
      (flavor : Nat) (kr : Int)
  | mach_error (msg : String) (kr : Int)
  | kill (pid : Int) (sig : Nat)
  | wait
  deriving DecidableEq, Repr

/-- The observable behaviour of one execution of `main`. -/
structure Run where
  trace : List Event
  status : Int
  deriving DecidableEq, Repr

/-- Sequencing: the events `pre` happen, then the program continues as `r`. -/
def Run.after (pre : List Event) (r : Run) : Run :=
  ⟨pre ++ r.trace, r.status⟩

/-! ## `printf` conversions -/

/-- Conversion `%d` of an `int`. -/
def fmt_d (n : Int) : String := toString n

/-- Conversion `%u` / `%zu` of an unsigned value. -/
def fmt_u (n : Nat) : String := toString n

/-- Conversion `%x` / `%llx`: lowercase hexadecimal without padding. -/
def fmt_x (n : Nat) : String := String.mk (Nat.toDigits 16 n)

/-- Conversion `%0<w>x`: lowercase hexadecimal, zero-padded on the left to width `w`. -/
def fmt_0x (w : Nat) (n : Nat) : String :=
  String.mk (List.replicate (w - (Nat.toDigits 16 n).length) (Char.ofNat 48) ++ Nat.toDigits 16 n)

/-- Conversion `%-2d`: decimal, padded with blanks on the right to width 2. -/
def fmt_d_left2 (n : Int) : String :=
  String.mk ((toString n).data ++ List.replicate (2 - (toString n).length) (Char.ofNat 32))

/-- The value an unsigned 32-bit quantity has when `printf` reads it back as `int` (`%d`). -/
def asInt32 (n : Nat) : Int :=
  if n % 2 ^ 32 < 2 ^ 31 then ((n % 2 ^ 32 : Nat) : Int) else ((n % 2 ^ 32 : Nat) : Int) - 2 ^ 32

/-- Element `argv[i]` of the argument vector (the empty string stands for a null entry). -/
def argvAt (argv : List String) (i : Nat) : String := argv.getD i ""

/-! ## `simple_attach.c` -/

namespace simple_attach

/-- Inputs of one execution of `simple_attach`: command line, libc, kernel answers. -/
structure Env where
  /-- Argument vector; `argc` is its length. -/
  argv : List String
  /-- The libc function `atoi`. -/
  atoi : String → Int
  /-- Value of `mach_task_self ()`. -/
  self : Nat
  /-- Return value of `proc_pidpath` and the path it stored. -/
  pidpath_ret : Int
  path : String
  /-- Result of `task_for_pid` and the task name it stored. -/
  tfp_kr : Int
  task : Nat
  /-- Result of `task_suspend`. -/
  suspend_kr : Int
  /-- Result of `task_info` and the `suspend_count` field it stored. -/
  info_kr : Int
  suspend_count : Int
  /-- Result of `task_threads`: code, address of the array, the thread names in it
  (`thread_count` is the length of `threads`). -/
  threads_kr : Int
  thread_list : Nat
  threads : List Nat
  /-- Result of `task_resume`. -/
  resume_kr : Int

/-- Function `print_kern_error (msg, kr)` of `simple_attach.c`. -/
def print_kern_error (msg : String) (kr : Int) : List Event :=
  [Event.err ("Error: " ++ msg ++ ": ")] ++
  (if kr = KERN_SUCCESS then
    [Event.err "KERN_SUCCESS\n"]
  else if kr = KERN_FAILURE then
    [Event.err "KERN_FAILURE (likely permission denied)\n"]
  else if kr = KERN_INVALID_ARGUMENT then
    [Event.err "KERN_INVALID_ARGUMENT\n"]
  else
    [Event.err ("kern_return_t = " ++ fmt_d kr ++ "\n")])

/-- The part of `main` after a successful `task_suspend` (lines 117-178). -/
def attached (env : Env) : Run :=
  Run.after
    ([Event.out "    ✓ Task suspended\n",
      Event.task_info env.task env.info_kr env.suspend_count] ++
     (if env.info_kr = KERN_SUCCESS then
        [Event.out ("    Task suspend count: " ++ fmt_d env.suspend_count ++ "\n")]
      else []) ++
     [Event.task_threads env.task env.threads_kr env.thread_list env.threads] ++
     (if env.threads_kr = KERN_SUCCESS then
        [Event.out ("    Target has " ++ fmt_d (asInt32 env.threads.length) ++ " thread(s)\n")] ++
        env.threads.map (fun t => Event.mach_port_deallocate env.self t) ++
        [Event.vm_deallocate env.self env.thread_list
          ((env.threads.length * sizeof_thread_act_t) % 2 ^ 64)]
      else []) ++
     [Event.out "\n✓ Successfully attached to process!\n",
      Event.out "\nPress Enter to detach and resume the process...",
      Event.getchar,
      Event.out "\n[3] Calling task_resume()...\n",
      Event.task_resume env.task env.resume_kr] ++
     (if env.resume_kr ≠ KERN_SUCCESS then
        print_kern_error "task_resume() failed" env.resume_kr
      else
        [Event.out "    ✓ Task resumed\n"]) ++
     [Event.mach_port_deallocate env.self env.task,
      Event.out "\n✓ Detached from process\n"])
    ⟨[], 0⟩

/-- Function `main` of `simple_attach.c`. -/
def main (env : Env) : Run :=
  if env.argv.length ≠ 2 then
    ⟨[Event.err ("Usage: " ++ argvAt env.argv 0 ++ " <pid>\n"),
      Event.err "\nThis program demonstrates attaching to a process on macOS.\n",
      Event.err "Requires debugger entitlements or root privileges.\n"], 1⟩
  else
  let target_pid := env.atoi (argvAt env.argv 1)
  if target_pid ≤ 0 then
    ⟨[Event.err "Error: Invalid PID\n"], 1⟩
  else
  Run.after
    [Event.proc_pidpath target_pid env.pidpath_ret,
     (if env.pidpath_ret > 0 then
        Event.out ("Target process: " ++ env.path ++ " (PID " ++ fmt_d target_pid ++ ")\n")
      else
        Event.out ("Target PID: " ++ fmt_d target_pid ++ "\n")),
     Event.out "\n[1] Calling task_for_pid()...\n",
     Event.task_for_pid env.self target_pid env.tfp_kr env.task] <|
  if env.tfp_kr ≠ KERN_SUCCESS then
    ⟨print_kern_error "task_for_pid() failed" env.tfp_kr ++
     [Event.err "\nCommon causes:\n",
      Event.err "  - Not running as root\n",
      Event.err "  - Missing debugger entitlements\n",
      Event.err "  - Target process is restricted (SIP protected)\n",
      Event.err "\nTo fix:\n",
      Event.err ("  1. Run as root: sudo " ++ argvAt env.argv 0 ++ " " ++ fmt_d target_pid ++ "\n"),
      Event.err "  2. Or add entitlements:\n",
      Event.err ("     codesign -s - --entitlements debugger.entitlements --force " ++
        argvAt env.argv 0 ++ "\n")], 1⟩
  else
  Run.after
    [Event.out ("    ✓ Got task port: 0x" ++ fmt_x env.task ++ "\n"),
     Event.out "\n[2] Calling task_suspend()...\n",
     Event.task_suspend env.task env.suspend_kr] <|
  if env.suspend_kr ≠ KERN_SUCCESS then
    ⟨print_kern_error "task_suspend() failed" env.suspend_kr ++
     [Event.mach_port_deallocate env.self env.task], 1⟩
  else
  attached env

end simple_attach

/-! ## `memory_access.c` -/

namespace memory_access

/-- The libc predicate `isprint` in the C locale, on the value of a byte. -/
def isprint (c : Nat) : Bool := 0x20 ≤ c && c ≤ 0x7E

/-- Body of the loop `for (j = 0; j < 16; j++)` of `print_hex_dump` (lines 38-43). -/
def hex_cell (data : List Nat) (size i j : Nat) : List Event :=
  (if i + j < size then
    [Event.out (fmt_0x 2 (data.getD (i + j) 0) ++ " ")]
  else
    [Event.out "   "]) ++
  (if j = 7 then [Event.out " "] else [])

/-- Body of the loop `for (j = 0; j < 16 && i + j < size; j++)` (lines 50-51). -/
def ascii_cell (data : List Nat) (i j : Nat) : Event :=
  Event.out (String.singleton
    (if isprint (data.getD (i + j) 0) then Char.ofNat (data.getD (i + j) 0) else '.'))

/-- One iteration of the outer loop of `print_hex_dump` (lines 34-54). -/
def hex_row (data : List Nat) (size base_addr i : Nat) : List Event :=
  [Event.out ("  0x" ++ fmt_0x 16 ((base_addr + i) % 2 ^ 64) ++ ": ")] ++
  (List.range 16).flatMap (hex_cell data size i) ++
  [Event.out " |"] ++
  ((List.range 16).takeWhile (fun j => decide (i + j < size))).map (ascii_cell data i) ++
  [Event.out "|\n"]

/-- The loop `for (i = ...; i < size; i += 16)` of `print_hex_dump`, started at `i`;
the first argument bounds the number of iterations. -/
def hex_rows : Nat → List Nat → Nat → Nat → Nat → List Event
  | 0, _, _, _, _ => []
  | fuel + 1, data, size, base_addr, i =>
    if i < size then
      hex_row data size base_addr i ++ hex_rows fuel data size base_addr (i + 16)
    else []

/-- Function `print_hex_dump (data, size, base_addr)` of `memory_access.c`; `data` lists
the bytes the pointer refers to.  The loop makes at most `size` iterations, and it is
modelled for `size + 16 <= 2 ^ 64`, where `i += 16` cannot wrap. -/
def print_hex_dump (data : List Nat) (size base_addr : Nat) : List Event :=
  hex_rows size data size base_addr 0

/-- Inputs of one execution of `memory_access`: command line, libc, kernel answers. -/
structure Env where
  argv : List String
  atoi : String → Int
  /-- The libc function `strtoull (s, NULL, 0)`, with values below `2 ^ 64`. -/
  strtoull : String → Nat
  self : Nat
  tfp_kr : Int
  task : Nat
  suspend_kr : Int
  /-- Result of the first `mach_vm_read`: code, address and contents of the buffer, count. -/
  read_kr : Int
  read_data : Nat
  read_bytes : List Nat
  read_count : Nat
  /-- Line returned by `fgets` (`none` for a null result). -/
  response : Option String
  /-- Result of `mach_vm_write`. -/
  write_kr : Int
  /-- Result of the verification `mach_vm_read`. -/
  verify_kr : Int
  verify_data : Nat
  verify_bytes : List Nat
  verify_count : Nat
  /-- Result of `task_resume` (ignored by the program). -/
  resume_kr : Int

/-- The condition `fgets (...) && (response[0] == 'y' || response[0] == 'Y')`. -/
def answered_yes (response : Option String) : Bool :=
  match response with
  | none => false
  | some s => s.data.head? = some 'y' || s.data.head? = some 'Y'

/-- The test pattern built at lines 154-157: `write_data[i] = (uint8_t)(i & 0xFF)`. -/
def test_pattern (size : Nat) : List Nat :=
  (List.range size).map (fun i => (i &&& 0xFF) % 256)

/-- The body of `if (fgets ... 'y' ...)` (lines 151-187); `malloc` is taken to succeed. -/
def write_step (env : Env) (address size : Nat) : List Event :=
  [Event.out "\n[4] Writing memory with mach_vm_write()...\n",
   Event.malloc size,
   Event.mach_vm_write env.task address (test_pattern size) (size % 2 ^ 32) env.write_kr] ++
  (if env.write_kr ≠ KERN_SUCCESS then
    [Event.err ("Error: mach_vm_write() failed with code " ++ fmt_d env.write_kr ++ "\n"),
     Event.err "The address may be read-only or not writable\n"]
  else
    [Event.out ("    ✓ Wrote " ++ fmt_u size ++ " bytes\n"),
     Event.out "\n[5] Reading back to verify...\n",
     Event.mach_vm_read env.task address size env.verify_kr
       env.verify_data env.verify_bytes env.verify_count] ++
    (if env.verify_kr = KERN_SUCCESS then
      [Event.out ("    ✓ Read " ++ fmt_u env.verify_count ++ " bytes\n"),
       Event.out "\nNew memory contents:\n"] ++
      print_hex_dump env.verify_bytes env.verify_count address ++
      [Event.vm_deallocate env.self env.verify_data env.verify_count]
    else [])) ++
  [Event.free]

/-- The part of `main` after a successful first `mach_vm_read` (lines 130-202). -/
def after_read (env : Env) (address size : Nat) : Run :=
  ⟨[Event.out ("    ✓ Read " ++ fmt_u env.read_count ++ " bytes\n"),
    Event.out "\nMemory contents:\n"] ++
   print_hex_dump env.read_bytes env.read_count address ++
   [Event.vm_deallocate env.self env.read_data env.read_count,
    Event.out "\nDo you want to write to this memory? (y/N): ",
    Event.fgets env.response] ++
   (if answered_yes env.response then write_step env address size else []) ++
   [Event.out "\n[Cleanup] Resuming task...\n",
    Event.task_resume env.task env.resume_kr,
    Event.mach_port_deallocate env.self env.task,
    Event.out "\n✓ Done!\n",
    Event.out "\nKey takeaway:\n",
    Event.out "  - macOS can read/write arbitrary memory sizes in ONE call\n",
    Event.out "  - Linux ptrace requires a loop, reading/writing one word at a time\n",
    Event.out "  - This makes macOS Mach API much more efficient for memory access\n",
    Event.out "  - But remember to vm_deallocate() the buffer from mach_vm_read()!\n"], 0⟩

/-- Function `main` of `memory_access.c`. -/
def main (env : Env) : Run :=
  if env.argv.length < 4 then
    ⟨[Event.err ("Usage: " ++ argvAt env.argv 0 ++ " <pid> <address> <size>\n"),
      Event.err "\nExample:\n",
      Event.err ("  " ++ argvAt env.argv 0 ++ " 1234 0x100000000 64\n"),
      Event.err "\nThis will read 64 bytes from address 0x100000000 in process 1234\n"], 1⟩
  else
  let target_pid := env.atoi (argvAt env.argv 1)
  let address := env.strtoull (argvAt env.argv 2)
  let size := env.strtoull (argvAt env.argv 3)
  if size > 1024 * 1024 then
    ⟨[Event.err "Error: Size too large (max 1MB)\n"], 1⟩
  else
  Run.after
    [Event.out ("Target PID: " ++ fmt_d target_pid ++ "\n"),
     Event.out ("Address:    0x" ++ fmt_x address ++ "\n"),
     Event.out ("Size:       " ++ fmt_u size ++ " bytes\n"),
     Event.out "\n[1] Getting task port...\n",
     Event.task_for_pid env.self target_pid env.tfp_kr env.task] <|
  if env.tfp_kr ≠ KERN_SUCCESS then
    ⟨[Event.err ("Error: task_for_pid() failed with code " ++ fmt_d env.tfp_kr ++ "\n"),
      Event.err "Try running as root or with debugger entitlements\n"], 1⟩
  else
  Run.after
    [Event.out ("    ✓ Got task port: 0x" ++ fmt_x env.task ++ "\n"),
     Event.out "\n[2] Suspending task...\n",
     Event.task_suspend env.task env.suspend_kr] <|
  if env.suspend_kr ≠ KERN_SUCCESS then
    ⟨[Event.err "Error: task_suspend() failed\n",
      Event.mach_port_deallocate env.self env.task], 1⟩
  else
  Run.after
    [Event.out "    ✓ Task suspended\n",
     Event.out "\n[3] Reading memory with mach_vm_read()...\n",
     Event.mach_vm_read env.task address size env.read_kr
       env.read_data env.read_bytes env.read_count] <|
  if env.read_kr ≠ KERN_SUCCESS then
    ⟨[Event.err ("Error: mach_vm_read() failed with code " ++ fmt_d env.read_kr ++ "\n"),
      Event.err "The address may be invalid or not mapped\n",
      Event.task_resume env.task env.resume_kr,
      Event.mach_port_deallocate env.self env.task], 1⟩
  else
  after_read env address size

end memory_access

/-! ## `register_access.c` -/

namespace register_access

/-- The three ways the conditional compilation of `register_access.c` resolves. -/
inductive Arch where
  | x86_64
  | arm64
  | other
  deriving DecidableEq, Repr

/-- Conversion `0x%016llx` of a 64-bit register. -/
def reg (v : Nat) : String := "0x" ++ fmt_0x 16 v

/-- Function `print_x86_64_registers` of `register_access.c`. -/
def print_x86_64_registers (state : x86_thread_state64_t) : List Event :=
  [Event.out "  General Purpose Registers:\n",
   Event.out ("    rax: " ++ reg state.__rax ++ "    rbx: " ++ reg state.__rbx ++ "\n"),
   Event.out ("    rcx: " ++ reg state.__rcx ++ "    rdx: " ++ reg state.__rdx ++ "\n"),
   Event.out ("    rsi: " ++ reg state.__rsi ++ "    rdi: " ++ reg state.__rdi ++ "\n"),
   Event.out ("    rbp: " ++ reg state.__rbp ++ "    rsp: " ++ reg state.__rsp ++ "\n"),
   Event.out ("    r8:  " ++ reg state.__r8 ++ "    r9:  " ++ reg state.__r9 ++ "\n"),
   Event.out ("    r10: " ++ reg state.__r10 ++ "    r11: " ++ reg state.__r11 ++ "\n"),
   Event.out ("    r12: " ++ reg state.__r12 ++ "    r13: " ++ reg state.__r13 ++ "\n"),
   Event.out ("    r14: " ++ reg state.__r14 ++ "    r15: " ++ reg state.__r15 ++ "\n"),
   Event.out "\n  Control Registers:\n",
   Event.out ("    rip: " ++ reg state.__rip ++ " (instruction pointer)\n"),
   Event.out ("    rflags: " ++ reg state.__rflags ++ "\n"),
   Event.out ("    cs:  " ++ reg state.__cs ++ "    fs:  " ++ reg state.__fs ++
     "    gs:  " ++ reg state.__gs ++ "\n")]

/-- The lvalue `state->__x[k]`: the array has 29 elements and `__fp` follows it in the
structure, which is what index 29 (used by the last row of the dump) refers to. -/
def arm_x (state : arm_thread_state64_t) (k : Nat) : Nat :=
  if k < 29 then state.__x.getD k 0 else state.__fp

/-- Function `print_arm64_registers` of `register_access.c`. -/
def print_arm64_registers (state : arm_thread_state64_t) : List Event :=
  [Event.out "  General Purpose Registers:\n"] ++
  (List.range 15).map (fun k =>
    Event.out ("    x" ++ fmt_d_left2 (2 * k : Nat) ++ ": " ++ reg (arm_x state (2 * k)) ++
      "    x" ++ fmt_d_left2 (2 * k + 1 : Nat) ++ ": " ++ reg (arm_x state (2 * k + 1)) ++ "\n")) ++
  [Event.out ("    fp:  " ++ reg state.__fp ++ " (x29, frame pointer)\n"),
   Event.out ("    lr:  " ++ reg state.__lr ++ " (x30, link register)\n"),
   Event.out ("    sp:  " ++ reg state.__sp ++ " (stack pointer)\n"),
   Event.out ("    pc:  " ++ reg state.__pc ++ " (program counter)\n"),
   Event.out ("    cpsr: 0x" ++ fmt_0x 8 state.__cpsr ++ " (processor state)\n")]

/-- Kernel answers to the calls the loop body makes for one thread; `σ` is the layout
of the register structure of the build. -/
structure ThreadResp (σ : Type) where
  /-- First `thread_get_state`: code, buffer contents, returned count. -/
  get_kr : Int
  state : σ
  state_count : Nat
  /-- First `thread_set_state`. -/
  set_kr : Int
  /-- Verification `thread_get_state`. -/
  verify_kr : Int
  verify_state : σ
  verify_count : Nat
  /-- Second `thread_set_state` (result ignored by the program). -/
  restore_kr : Int

/-- The x86_64 branch of the loop body (lines 135-194) for thread number `i`. -/
def thread_step_x86 (i thread : Nat) (r : ThreadResp x86_thread_state64_t) : List Event :=
  [Event.thread_get_state thread x86_THREAD_STATE64 x86_THREAD_STATE64_COUNT r.get_kr
    (RegState.x86 r.state) r.state_count] ++
  (if r.get_kr ≠ KERN_SUCCESS then
    [Event.err ("  Error: thread_get_state() failed for thread " ++ fmt_d (asInt32 i) ++ "\n")]
  else
    let old_rax := r.state.__rax
    let state := { r.state with __rax := 0xDEADBEEFCAFEBABE }
    [Event.out ("  ✓ Read " ++ fmt_d (asInt32 r.state_count) ++ " values from register state\n")] ++
    print_x86_64_registers r.state ++
    [Event.out "\n  Modifying RAX register...\n",
     Event.thread_set_state thread x86_THREAD_STATE64 (RegState.x86 state) r.state_count r.set_kr] ++
    (if r.set_kr ≠ KERN_SUCCESS then
      [Event.err "  Error: thread_set_state() failed\n"]
    else
      [Event.out ("  ✓ Modified RAX: " ++ reg old_rax ++ " -> " ++ reg state.__rax ++ "\n"),
       Event.thread_get_state thread x86_THREAD_STATE64 x86_THREAD_STATE64_COUNT r.verify_kr
         (RegState.x86 r.verify_state) r.verify_count] ++
      (if r.verify_kr = KERN_SUCCESS then
        [Event.out ("  ✓ Verified RAX = " ++ reg r.verify_state.__rax ++ "\n")]
      else []) ++
      [Event.thread_set_state thread x86_THREAD_STATE64
         (RegState.x86 { state with __rax := old_rax }) r.state_count r.restore_kr,
       Event.out "  ✓ Restored RAX to original value\n"]))

/-- The arm64 branch of the loop body (lines 197-240) for thread number `i`. -/
def thread_step_arm (i thread : Nat) (r : ThreadResp arm_thread_state64_t) : List Event :=
  [Event.thread_get_state thread ARM_THREAD_STATE64 ARM_THREAD_STATE64_COUNT r.get_kr
    (RegState.arm r.state) r.state_count] ++
  (if r.get_kr ≠ KERN_SUCCESS then
    [Event.err ("  Error: thread_get_state() failed for thread " ++ fmt_d (asInt32 i) ++ "\n")]
  else
    let old_x0 := r.state.__x.getD 0 0
    let state := { r.state with __x := r.state.__x.set 0 0xDEADBEEFCAFEBABE }
    [Event.out ("  ✓ Read " ++ fmt_d (asInt32 r.state_count) ++ " values from register state\n")] ++
    print_arm64_registers r.state ++
    [Event.out "\n  Modifying X0 register...\n",
     Event.thread_set_state thread ARM_THREAD_STATE64 (RegState.arm state) r.state_count r.set_kr] ++
    (if r.set_kr ≠ KERN_SUCCESS then
      [Event.err "  Error: thread_set_state() failed\n"]
    else
      [Event.out ("  ✓ Modified X0: " ++ reg old_x0 ++ " -> " ++ reg (state.__x.getD 0 0) ++ "\n"),
       Event.thread_get_state thread ARM_THREAD_STATE64 ARM_THREAD_STATE64_COUNT r.verify_kr
         (RegState.arm r.verify_state) r.verify_count] ++
      (if r.verify_kr = KERN_SUCCESS then
        [Event.out ("  ✓ Verified X0 = " ++ reg (r.verify_state.__x.getD 0 0) ++ "\n")]
      else []) ++
      [Event.thread_set_state thread ARM_THREAD_STATE64
         (RegState.arm { state with __x := state.__x.set 0 old_x0 }) r.state_count r.restore_kr,
       Event.out "  ✓ Restored X0 to original value\n"]))

/-- The register structure declared by the loop body in each build. -/
@[reducible] def Arch.State : Arch → Type
  | Arch.x86_64 => x86_thread_state64_t
  | Arch.arm64 => arm_thread_state64_t
  | Arch.other => Unit

/-- The count passed by the build as the input value of `state_count`. -/
def Arch.expected_count : Arch → Nat
  | Arch.x86_64 => x86_THREAD_STATE64_COUNT
  | Arch.arm64 => ARM_THREAD_STATE64_COUNT
  | Arch.other => 0

/-- Inputs of one execution of `register_access` built for `arch`. -/
structure Env (arch : Arch) where
  argv : List String
  atoi : String → Int
  self : Nat
  tfp_kr : Int
  task : Nat
  suspend_kr : Int
  /-- Result of `task_threads` (`thread_count` is the length of `threads`). -/
  threads_kr : Int
  thread_list : Nat
  threads : List Nat
  /-- Kernel answers inside the loop, by thread index. -/
  thread : Nat → ThreadResp (Arch.State arch)
  /-- Result of `task_resume` (ignored by the program). -/
  resume_kr : Int

/-- The `printf` of lines 131-132, which opens every iteration of the loop. -/
def step_header (i thread : Nat) : Event :=
  Event.out ("\n[4." ++ fmt_d (asInt32 i) ++ "] Reading registers for thread " ++
    fmt_d (asInt32 i) ++ " (port 0x" ++ fmt_x thread ++ ")...\n")

/-- One iteration of the loop of lines 130-244: thread number `i` with name `thread`. -/
def thread_step : (arch : Arch) → Nat → Nat → ThreadResp (Arch.State arch) → List Event
  | Arch.x86_64, i, thread, r => step_header i thread :: thread_step_x86 i thread r
  | Arch.arm64, i, thread, r => step_header i thread :: thread_step_arm i thread r
  | Arch.other, i, thread, _ =>
    [step_header i thread,
     Event.out "  Architecture not supported for register display\n"]

/-- The loop of lines 130-244 over `thread_list[i]`, `i` from `start` on. -/
def thread_loop (arch : Arch) (resp : Nat → ThreadResp (Arch.State arch)) :
    Nat → List Nat → List Event
  | _, [] => []
  | i, thread :: rest => thread_step arch i thread (resp i) ++ thread_loop arch resp (i + 1) rest

/-- The part of `main` after a successful `task_threads` (lines 117-266). -/
def with_threads (arch : Arch) (env : Env arch) : Run :=
  ⟨[Event.out ("    ✓ Found " ++ fmt_d (asInt32 env.threads.length) ++ " thread(s)\n")] ++
   thread_loop arch env.thread 0 env.threads ++
   [Event.out "\n[Cleanup]\n"] ++
   env.threads.map (fun t => Event.mach_port_deallocate env.self t) ++
   [Event.vm_deallocate env.self env.thread_list
      ((env.threads.length * sizeof_thread_act_t) % 2 ^ 64),
    Event.task_resume env.task env.resume_kr,
    Event.mach_port_deallocate env.self env.task,
    Event.out "  ✓ Cleaned up and resumed task\n",
    Event.out "\n✓ Done!\n",
    Event.out "\nKey takeaways:\n",
    Event.out "  - macOS register operations are per-THREAD, not per-process\n",
    Event.out "  - Must use architecture-specific flavors (x86_THREAD_STATE64, etc)\n",
    Event.out "  - thread_set_state() writes the ENTIRE state structure atomically\n",
    Event.out "  - Linux uses PTRACE_GETREGS/SETREGS which are process-level\n"], 0⟩

/-- Function `main` of `register_access.c`, as compiled for `arch`. -/
def main (arch : Arch) (env : Env arch) : Run :=
  if env.argv.length ≠ 2 then
    ⟨[Event.err ("Usage: " ++ argvAt env.argv 0 ++ " <pid>\n"),
      Event.err "\nThis program reads and displays CPU registers from all threads\n",
      Event.err "in the target process.\n"], 1⟩
  else
  let target_pid := env.atoi (argvAt env.argv 1)
  Run.after
    [Event.out ("Target PID: " ++ fmt_d target_pid ++ "\n"),
     Event.out "\n[1] Getting task port...\n",
     Event.task_for_pid env.self target_pid env.tfp_kr env.task] <|
  if env.tfp_kr ≠ KERN_SUCCESS then
    ⟨[Event.err "Error: task_for_pid() failed\n"], 1⟩
  else
  Run.after
    [Event.out ("    ✓ Got task port: 0x" ++ fmt_x env.task ++ "\n"),
     Event.out "\n[2] Suspending task...\n",
     Event.task_suspend env.task env.suspend_kr] <|
  if env.suspend_kr ≠ KERN_SUCCESS then
    ⟨[Event.err "Error: task_suspend() failed\n",
      Event.mach_port_deallocate env.self env.task], 1⟩
  else
  Run.after
    [Event.out "    ✓ Task suspended\n",
     Event.out "\n[3] Getting thread list...\n",
     Event.task_threads env.task env.threads_kr env.thread_list env.threads] <|
  if env.threads_kr ≠ KERN_SUCCESS then
    ⟨[Event.err "Error: task_threads() failed\n",
      Event.task_resume env.task env.resume_kr,
      Event.mach_port_deallocate env.self env.task], 1⟩
  else
  with_threads arch env

end register_access

/-! ## `mach_exception.c` -/

namespace mach_exception

/-- Constant `MACH_PORT_RIGHT_RECEIVE` of `<mach/port.h>`. -/
def MACH_PORT_RIGHT_RECEIVE : Nat := 1

/-- Constant `MACH_MSG_TYPE_MAKE_SEND` of `<mach/message.h>`. -/
def MACH_MSG_TYPE_MAKE_SEND : Nat := 20

/-- Constant `EXCEPTION_DEFAULT` of `<mach/exception_types.h>`. -/
def EXCEPTION_DEFAULT : Nat := 1

/-- Constant `MACH_EXCEPTION_CODES` of `<mach/exception_types.h>`. -/
def MACH_EXCEPTION_CODES : Nat := 0x80000000

/-- Request `PT_TRACE_ME` of `<sys/ptrace.h>`. -/
def PT_TRACE_ME : Nat := 0

/-- Request `PT_SIGEXC` of `<sys/ptrace.h>`. -/
def PT_SIGEXC : Nat := 12

/-- Signal number `SIGKILL`. -/
def SIGKILL : Nat := 9

/-- Inputs of one execution of `mach_exception`. -/
structure Env where
  /-- The constants `EXC_MASK_ALL` and `THREAD_STATE_NONE`, whose values depend on the
  SDK and on the architecture. -/
  EXC_MASK_ALL : Nat
  THREAD_STATE_NONE : Nat
  self : Nat
  /-- Result of `mach_port_allocate` and the name it stored. -/
  alloc_kr : Int
  exception_port : Nat
  /-- Result of `mach_port_insert_right`. -/
  insert_kr : Int
  /-- Return value of `fork`. -/
  child_pid : Int
  /-- Return values of the two `ptrace` calls of the child. -/
  trace_me_ret : Int
  sigexc_ret : Int
  /-- Result of `task_for_pid` and the name it stored. -/
  tfp_kr : Int
  child_task : Nat
  /-- Result of `task_set_exception_ports`. -/
  set_kr : Int

/-- The branch `if (child_pid == 0)` (lines 56-71); the status of its last line is the
one of `exit (0)`, reached when `pause` returns. -/
def child (env : Env) : Run :=
  Run.after
    [Event.out "  [Child] Calling PT_TRACE_ME...\n",
     Event.ptrace PT_TRACE_ME env.trace_me_ret] <|
  if env.trace_me_ret < 0 then
    ⟨[Event.perror "PT_TRACE_ME"], 1⟩
  else
  Run.after
    [Event.out "  [Child] Calling PT_SIGEXC...\n",
     Event.ptrace PT_SIGEXC env.sigexc_ret] <|
  if env.sigexc_ret < 0 then
    ⟨[Event.perror "PT_SIGEXC"], 1⟩
  else
    ⟨[Event.out "  [Child] Waiting to be debugged...\n", Event.pause], 0⟩

/-- The macro `CHECK_KERN (kr, msg)` when `kr != KERN_SUCCESS`: report and `exit (1)`. -/
def CHECK_KERN_failed (kr : Int) (msg : String) : Run :=
  ⟨[Event.mach_error msg kr], 1⟩

/-- The parent's code after `fork` (lines 75-116). -/
def parent (env : Env) : Run :=
  Run.after
    [Event.out ("  ✓ Forked child with PID: " ++ fmt_d env.child_pid ++ "\n"),
     Event.usleep 100000,
     Event.out ("\nStep 4: Get task port for child PID " ++ fmt_d env.child_pid ++ "...\n"),
     Event.task_for_pid env.self env.child_pid env.tfp_kr env.child_task] <|
  if env.tfp_kr ≠ KERN_SUCCESS then CHECK_KERN_failed env.tfp_kr "task_for_pid" else
  let mask := env.EXC_MASK_ALL
  let behavior := EXCEPTION_DEFAULT ||| MACH_EXCEPTION_CODES
  let flavor := env.THREAD_STATE_NONE
  Run.after
    [Event.out ("  ✓ Got child task port: 0x" ++ fmt_x env.child_task ++ "\n"),
     Event.out "\nStep 5: Set exception ports on child task...\n",
     Event.out "  Parameters:\n",
     Event.out ("    mask: 0x" ++ fmt_x mask ++ " (EXC_MASK_ALL)\n"),
     Event.out ("    port: 0x" ++ fmt_x env.exception_port ++ "\n"),
     Event.out ("    behavior: 0x" ++ fmt_x behavior ++ " (EXCEPTION_DEFAULT | MACH_EXCEPTION_CODES)\n"),
     Event.out ("    flavor: 0x" ++ fmt_x flavor ++ " (THREAD_STATE_NONE)\n"),
     Event.task_set_exception_ports env.child_task mask env.exception_port behavior flavor
       env.set_kr] <|
  if env.set_kr ≠ KERN_SUCCESS then CHECK_KERN_failed env.set_kr "task_set_exception_ports" else
    ⟨[Event.out "  ✓ Successfully set exception ports!\n",
      Event.out "\nStep 6: Cleanup...\n",
      Event.kill env.child_pid SIGKILL,
      Event.wait,
      Event.mach_port_deallocate env.self env.exception_port,
      Event.out "\n✓ All steps completed successfully!\n",
      Event.out "\nThis demonstrates that exception handling setup works correctly.\n",
      Event.out "The key is to call task_set_exception_ports AFTER:\n",
      Event.out "  1. Creating the exception port\n",
      Event.out "  2. Inserting the send right\n",
      Event.out "  3. Getting the child task port\n",
      Event.out "  4. Waiting for the child to be ready (after exec)\n"], 0⟩

/-- Function `main` of `mach_exception.c`, as executed by the process that calls it
(after `fork`, the process in which `fork` returned `child_pid`). -/
def main (env : Env) : Run :=
  Run.after
    [Event.out "Step 1: Allocate exception port with MACH_PORT_RIGHT_RECEIVE...\n",
     Event.mach_port_allocate env.self MACH_PORT_RIGHT_RECEIVE env.alloc_kr env.exception_port] <|
  if env.alloc_kr ≠ KERN_SUCCESS then CHECK_KERN_failed env.alloc_kr "mach_port_allocate" else
  Run.after
    [Event.out ("  ✓ Allocated exception port: 0x" ++ fmt_x env.exception_port ++ "\n"),
     Event.out "\nStep 2: Insert send right with MACH_MSG_TYPE_MAKE_SEND...\n",
     Event.mach_port_insert_right env.self env.exception_port env.exception_port
       MACH_MSG_TYPE_MAKE_SEND env.insert_kr] <|
  if env.insert_kr ≠ KERN_SUCCESS then CHECK_KERN_failed env.insert_kr "mach_port_insert_right" else
  Run.after
    [Event.out "  ✓ Inserted send right\n",
     Event.out "\nStep 3: Fork child process...\n",
     Event.fork env.child_pid] <|
  if env.child_pid = 0 then child env else parent env

end mach_exception

/-! ## Properties of traces -/

/-- Text output: an event made by `printf` or `fprintf`. -/
def Event.isText : Event → Bool
  | Event.out _ => true
  | Event.err _ => true
  | _ => false

/-- The event is a `task_suspend` on `t` that returned `KERN_SUCCESS`. -/
def isSuspendOk (t : Nat) : Event → Bool
  | Event.task_suspend task kr => task = t && kr = KERN_SUCCESS
  | _ => false

/-- The event is a call of `task_resume` on `t` (whatever it returned). -/
def isResume (t : Nat) : Event → Bool
  | Event.task_resume task _ => task = t
  | _ => false

/-- The event is a call of `task_suspend` or of `task_resume`. -/
def isSuspendOrResume : Event → Bool
  | Event.task_suspend _ _ => true
  | Event.task_resume _ _ => true
  | _ => false

/-- Suspend/resume discipline of a trace: for every task `t`, at every point of the run
the calls of `task_resume` on `t` made so far do not outnumber the successful
`task_suspend` on `t` made so far, and at the end the two numbers agree. -/
def SuspendResumeBalanced (tr : List Event) : Prop :=
  ∀ t : Nat,
    (∀ n : Nat, (tr.take n).countP (isResume t) ≤ (tr.take n).countP (isSuspendOk t)) ∧
    tr.countP (isResume t) = tr.countP (isSuspendOk t)

/-- Events of the register loop: text output, `thread_get_state`, `thread_set_state`. -/
def Event.isThreadStep : Event → Bool
  | Event.out _ => true
  | Event.err _ => true
  | Event.thread_get_state _ _ _ _ _ _ => true
  | Event.thread_set_state _ _ _ _ _ => true
  | _ => false

/-- The target's memory as a byte store: the byte held at each 64-bit address. -/
abbrev Mem := Nat → Nat

/-- Effect of a successful `mach_vm_write`: the bytes are stored at `address`,
`address + 1`, ... (addresses are 64-bit and wrap around). -/
def Mem.write : Mem → Nat → List Nat → Mem
  | m, _, [] => m
  | m, address, b :: rest =>
    Mem.write (fun a => if a = address % 2 ^ 64 then b else m a) (address + 1) rest

/-- What a successful full-length `mach_vm_read` of `n` bytes at `address` returns. -/
def Mem.read (m : Mem) (address n : Nat) : List Nat :=
  (List.range n).map (fun i => m ((address + i) % 2 ^ 64))

/-- The event is a `mach_vm_read` or a `mach_vm_write`. -/
def isVmAccess : Event → Bool
  | Event.mach_vm_read _ _ _ _ _ _ _ => true
  | Event.mach_vm_write _ _ _ _ _ => true
  | _ => false

/-- The trace agrees with the byte store `m` it starts from: a successful
`mach_vm_write` stores the first `size` bytes of its buffer, and every successful
`mach_vm_read` whose returned count is the requested size returned the stored bytes. -/
def mem_consistent : Mem → List Event → Bool
  | _, [] => true
  | m, Event.mach_vm_write _ address data size kr :: rest =>
    mem_consistent (if kr = KERN_SUCCESS then Mem.write m address (data.take size) else m) rest
  | m, Event.mach_vm_read _ address size kr _ bytes count :: rest =>
    (if kr = KERN_SUCCESS ∧ count = size then decide (bytes = Mem.read m address size) else true)
      && mem_consistent m rest
  | m, _ :: rest => mem_consistent m rest

/-- A run of `memory_access` on 8 bytes at address 4096 in which the user answers yes. -/
def memory_access.sample_env : memory_access.Env where
  argv := ["memory_access", "1234", "4096", "8"]
  atoi := fun _ => 1234
  strtoull := fun s => if s.length = 1 then 8 else 4096
  self := 259
  tfp_kr := 0
  task := 5123
  suspend_kr := 0
  read_kr := 0
  read_data := 65536
  read_bytes := [72, 101, 108, 108, 111, 0, 255, 10]
  read_count := 8
  response := some "y\n"
  write_kr := 0
  verify_kr := 0
  verify_data := 131072
  verify_bytes := [0, 1, 2, 3, 4, 5, 6, 7]
  verify_count := 8
  resume_kr := 0

/-- A byte store holding the bytes of "Hello" at address 4096. -/
def memory_access.sample_mem : Mem :=
  fun a => [72, 101, 108, 108, 111, 0, 255, 10].getD (a - 4096) 0

/-- An x86_64 register snapshot with distinct field values. -/
def register_access.sample_state : x86_thread_state64_t :=
  ⟨1, 2, 3, 4, 5, 6, 7, 8, 9, 10, 11, 12, 13, 14, 15, 16, 17, 18, 19, 20, 21⟩

/-- A run of the x86_64 build on one thread (name 7) whose first `thread_get_state`
returns `KERN_SUCCESS` with the count 40 instead of 42. -/
def register_access.short_count_env : register_access.Env register_access.Arch.x86_64 where
  argv := ["register_access", "1234"]
  atoi := fun _ => 1234
  self := 259
  tfp_kr := 0
  task := 5123
  suspend_kr := 0
  threads_kr := 0
  thread_list := 4096
  threads := [7]
  thread := fun _ =>
    { get_kr := 0, state := register_access.sample_state, state_count := 40, set_kr := 0,
      verify_kr := 0, verify_state := register_access.sample_state, verify_count := 42,
      restore_kr := 0 }
  resume_kr := 0

/-- Register state of thread `th` after the events of a trace, starting from `s`: a
`thread_set_state` on the thread that returns `KERN_SUCCESS` replaces the state as a
whole, every other event leaves it as it is. -/
def regs_after (th : Nat) : RegState → List Event → RegState
  | s, [] => s
  | s, Event.thread_set_state t _ st _ kr :: rest =>
    regs_after th (if t = th ∧ kr = KERN_SUCCESS then st else s) rest
  | s, _ :: rest => regs_after th s rest

/-- A run of the x86_64 build on one thread (name 7) in which every call succeeds except
the second `thread_set_state`, the one that restores RAX, which returns `KERN_FAILURE`. -/
def register_access.failed_restore_env : register_access.Env register_access.Arch.x86_64 where
  argv := ["register_access", "1234"]
  atoi := fun _ => 1234
  self := 259
  tfp_kr := 0
  task := 5123
  suspend_kr := 0
  threads_kr := 0
  thread_list := 4096
  threads := [7]
  thread := fun _ =>
    { get_kr := 0, state := register_access.sample_state, state_count := 42, set_kr := 0,
      verify_kr := 0,
      verify_state := { register_access.sample_state with __rax := 0xDEADBEEFCAFEBABE },
      verify_count := 42, restore_kr := 5 }
  resume_kr := 0

/-- The event releases a port name or a memory range. -/
def isRelease : Event → Bool
  | Event.mach_port_deallocate _ _ => true
  | Event.vm_deallocate _ _ _ => true
  | _ => false

/-- The part of a trace that follows its first `task_threads` call (nothing when the
trace has no such call). -/
def after_task_threads : List Event → List Event
  | [] => []
  | Event.task_threads _ _ _ _ :: rest => rest
  | _ :: rest => after_task_threads rest

/-- The run of `simple_attach` reaches `task_threads`: the argument checks pass and
`task_for_pid` and `task_suspend` succeed. -/
def simple_attach.Env.suspended (env : simple_attach.Env) : Prop :=
  env.argv.length = 2 ∧ 0 < env.atoi (argvAt env.argv 1) ∧
  env.tfp_kr = KERN_SUCCESS ∧ env.suspend_kr = KERN_SUCCESS

/-- The run of `register_access` reaches `task_threads`: the argument check passes and
`task_for_pid` and `task_suspend` succeed. -/
def register_access.Env.suspended {arch : register_access.Arch}
    (env : register_access.Env arch) : Prop :=
  env.argv.length = 2 ∧ env.tfp_kr = KERN_SUCCESS ∧ env.suspend_kr = KERN_SUCCESS

/-- A run of `simple_attach` on a task with the two threads 7 and 9. -/
def simple_attach.sample_env : simple_attach.Env where
  argv := ["simple_attach", "1234"]
  atoi := fun _ => 1234
  self := 259
  pidpath_ret := 9
  path := "/bin/cat"
  tfp_kr := 0
  task := 5123
  suspend_kr := 0
  info_kr := 0
  suspend_count := 1
  threads_kr := 0
  thread_list := 4096
  threads := [7, 9]
  resume_kr := 0

/-- The event is a `mach_vm_read` or a `vm_deallocate`. -/
def isReadOrFree : Event → Bool
  | Event.mach_vm_read _ _ _ _ _ _ _ => true
  | Event.vm_deallocate _ _ _ => true
  | _ => false

/-- Buffer discipline of `mach_vm_read` along a trace; `held` is the buffer (address,
count) returned by a successful read and not released yet.  A read may only be made
while no buffer is held; a `vm_deallocate` must be made in the task `self`, while a
buffer is held, with exactly its address and count; the trace must end with no buffer
held. -/
def buffers_released (self : Nat) : Option (Nat × Nat) → List Event → Bool
  | held, [] => held.isNone
  | held, Event.mach_vm_read _ _ _ kr data _ count :: rest =>
    held.isNone &&
      buffers_released self (if kr = KERN_SUCCESS then some (data, count) else none) rest
  | held, Event.vm_deallocate s address size :: rest =>
    decide (s = self ∧ held = some (address, size)) && buffers_released self none rest
  | held, _ :: rest => buffers_released self held rest

/-- Text written to the standard output. -/
def Event.isOut : Event → Bool
  | Event.out _ => true
  | _ => false

/-- The part of a trace that follows its first `mach_vm_read` call (nothing when the
trace has no such call). -/
def after_mach_vm_read : List Event → List Event
  | [] => []
  | Event.mach_vm_read _ _ _ _ _ _ _ :: rest => rest
  | _ :: rest => after_mach_vm_read rest

/-- A run of `memory_access` that asks for 64 bytes at address 4096, gets 8, and in
which the user declines the write. -/
def memory_access.short_read_env : memory_access.Env where
  argv := ["memory_access", "1234", "4096", "64"]
  atoi := fun _ => 1234
  strtoull := fun s => if s.length = 2 then 64 else 4096
  self := 259
  tfp_kr := 0
  task := 5123
  suspend_kr := 0
  read_kr := 0
  read_data := 65536
  read_bytes := [72, 101, 108, 108, 111, 0, 255, 10]
  read_count := 8
  response := some "n\n"
  write_kr := 0
  verify_kr := 0
  verify_data := 0
  verify_bytes := []
  verify_count := 0
  resume_kr := 0

/-- The event is a `mach_port_deallocate` of the name `p`. -/
def isDeallocOf (p : Nat) : Event → Bool
  | Event.mach_port_deallocate _ name => name = p
  | _ => false

/-- The event is a `mach_port_deallocate`, of any name. -/
def isPortDealloc : Event → Bool
  | Event.mach_port_deallocate _ _ => true
  | _ => false

/-- The last call made in a trace: its last event that is not text output. -/
def last_call (tr : List Event) : Option Event :=
  (tr.filter (fun e => !e.isText)).getLast?

/-- The argument checks of `simple_attach` pass, so `task_for_pid` is called. -/
def simple_attach.Env.args_ok (env : simple_attach.Env) : Prop :=
  env.argv.length = 2 ∧ 0 < env.atoi (argvAt env.argv 1)

/-- The argument checks of `memory_access` pass, so `task_for_pid` is called. -/
def memory_access.Env.args_ok (env : memory_access.Env) : Prop :=
  4 ≤ env.argv.length ∧ env.strtoull (argvAt env.argv 3) ≤ 1024 * 1024

/-- The argument check of `register_access` passes, so `task_for_pid` is called. -/
def register_access.Env.args_ok {arch : register_access.Arch}
    (env : register_access.Env arch) : Prop :=
  env.argv.length = 2

/-- The event releases or tears down something: `mach_port_deallocate`, `kill`, `wait`. -/
def isCleanup : Event → Bool
  | Event.mach_port_deallocate _ _ => true
  | Event.kill _ _ => true
  | Event.wait => true
  | _ => false

/-- The event is a call of `task_set_exception_ports`. -/
def isSetExceptionPorts : Event → Bool
  | Event.task_set_exception_ports _ _ _ _ _ _ => true
  | _ => false

/-- The event is one of the four calls of the registration sequence:
`mach_port_allocate`, `mach_port_insert_right`, `task_for_pid`,
`task_set_exception_ports`. -/
def isRegistrationCall : Event → Bool
  | Event.mach_port_allocate _ _ _ _ => true
  | Event.mach_port_insert_right _ _ _ _ _ => true
  | Event.task_for_pid _ _ _ _ => true
  | Event.task_set_exception_ports _ _ _ _ _ _ => true
  | _ => false

/-- A run of `mach_exception` in the parent: the port is allocated (name 2563), the
send right inserted, the child forked (pid 4321), and then `task_for_pid` fails with
`KERN_FAILURE`. -/
def mach_exception.tfp_fails_env : mach_exception.Env where
  EXC_MASK_ALL := 0x1BFE
  THREAD_STATE_NONE := 13
  self := 259
  alloc_kr := 0
  exception_port := 2563
  insert_kr := 0
  child_pid := 4321
  trace_me_ret := 0
  sigexc_ret := 0
  tfp_kr := 5
  child_task := 0
  set_kr := 0

/-- A run of `mach_exception` in the parent in which every call succeeds. -/
def mach_exception.success_env : mach_exception.Env where
  EXC_MASK_ALL := 0x1BFE
  THREAD_STATE_NONE := 13
  self := 259
  alloc_kr := 0
  exception_port := 2563
  insert_kr := 0
  child_pid := 4321
  trace_me_ret := 0
  sigexc_ret := 0
  tfp_kr := 0
  child_task := 5123
  set_kr := 0

/-- The event belongs to the teardown: a `task_resume` or a `mach_port_deallocate`. -/
def isTeardown : Event → Bool
  | Event.task_resume _ _ => true
  | Event.mach_port_deallocate _ _ => true
  | _ => false

/-- The label of a kernel return code in the words of the description of
`print_kern_error`: three codes have a name, every other code is shown in decimal. -/
def kern_label (kr : Int) : String :=
  if kr = KERN_FAILURE then "KERN_FAILURE (likely permission denied)"
  else if kr = KERN_SUCCESS then "KERN_SUCCESS"
  else if kr = KERN_INVALID_ARGUMENT then "KERN_INVALID_ARGUMENT"
  else "kern_return_t = " ++ fmt_d kr

/-- The characters written to the standard error by the events of a trace, in order. -/
def stderr_chars : List Event → List Char
  | [] => []
  | Event.err s :: rest => s.data ++ stderr_chars rest
  | _ :: rest => stderr_chars rest

/-- The characters written to the standard output by the events of a trace, in order. -/
def stdout_chars : List Event → List Char
  | [] => []
  | Event.out s :: rest => s.data ++ stdout_chars rest
  | _ :: rest => stdout_chars rest

/-- The numeral of `n` in `w` lowercase hexadecimal digits, most significant first:
the `w - 1` digits of `n / 16` followed by the digit `n % 16`. -/
def hex_digits : Nat → Nat → List Char
  | 0, _ => []
  | w + 1, n => hex_digits w (n / 16) ++ [Nat.digitChar (n % 16)]

/-- The character shown for a byte in the ASCII column, in the words of the description
of `print_hex_dump`: the byte itself when it is printable ASCII, a dot otherwise. -/
def memory_access.described_ascii (b : Nat) : Char :=
  if 0x20 ≤ b ∧ b ≤ 0x7E then Char.ofNat b else '.'

/-- The indices of the bytes of row `k` of a dump of `size` bytes: `16 * k + j` for
`j` below `min (16, size - 16 * k)`. -/
def memory_access.row_indices (size k : Nat) : List Nat :=
  (List.range (min 16 (size - 16 * k))).map (fun j => 16 * k + j)

/-- Row `k` of the dump in the words of the description of `print_hex_dump`: two
spaces, `0x`, the address of the row in 16 hexadecimal digits, `: `, sixteen columns
(the byte in two hexadecimal digits and a space where the row has a byte, three spaces
where it has none, one more space after column 7), ` |`, one character for each byte of
the row, `|` and a newline. -/
def memory_access.described_row (data : List Nat) (size base_addr k : Nat) : List Char :=
  "  0x".data ++ hex_digits 16 ((base_addr + 16 * k) % 2 ^ 64) ++ ": ".data ++
  (List.range 16).flatMap (fun j =>
    (if 16 * k + j < size then hex_digits 2 (data.getD (16 * k + j) 0) ++ " ".data
     else "   ".data) ++
    (if j = 7 then " ".data else [])) ++
  " |".data ++
  (memory_access.row_indices size k).map (fun idx =>
    memory_access.described_ascii (data.getD idx 0)) ++
  "|\n".data

/-- The dump in the words of the description: rows `0` to `ceil (size / 16) - 1`. -/
def memory_access.described_dump (data : List Nat) (size base_addr : Nat) : List Char :=
  (List.range ((size + 15) / 16)).flatMap (memory_access.described_row data size base_addr)

/-- Body of the first inner loop of `print_hex_dump` with the arithmetic of `size_t`
written out: `i + j` is computed modulo `2 ^ 64`. -/
def memory_access.hex_cell_u64 (data : List Nat) (size i j : Nat) : List Event :=
  (if (i + j) % 2 ^ 64 < size then
    [Event.out (fmt_0x 2 (data.getD ((i + j) % 2 ^ 64) 0) ++ " ")]
  else
    [Event.out "   "]) ++
  (if j = 7 then [Event.out " "] else [])

/-- One iteration of the outer loop of `print_hex_dump` with the arithmetic of `size_t`
and `uint64_t` written out. -/
def memory_access.hex_row_u64 (data : List Nat) (size base_addr i : Nat) : List Event :=
  [Event.out ("  0x" ++ fmt_0x 16 ((base_addr + i) % 2 ^ 64) ++ ": ")] ++
  (List.range 16).flatMap (memory_access.hex_cell_u64 data size i) ++
  [Event.out " |"] ++
  ((List.range 16).takeWhile (fun j => decide ((i + j) % 2 ^ 64 < size))).map
    (fun j => memory_access.ascii_cell data 0 ((i + j) % 2 ^ 64)) ++
  [Event.out "|\n"]

/-- The outer loop of `print_hex_dump` with the arithmetic of `size_t` written out:
`i += 16` is computed modulo `2 ^ 64`; the first argument bounds the number of
iterations. -/
def memory_access.hex_rows_u64 : Nat → List Nat → Nat → Nat → Nat → List Event
  | 0, _, _, _, _ => []
  | fuel + 1, data, size, base_addr, i =>
    if i < size then
      memory_access.hex_row_u64 data size base_addr i ++
        memory_access.hex_rows_u64 fuel data size base_addr ((i + 16) % 2 ^ 64)
    else []

/-- The first call made in a trace: its first event that is not text output. -/
def first_call (tr : List Event) : Option Event :=
  (tr.filter (fun e => !e.isText)).head?

/-- A run of `memory_access` asked for one byte more than the limit of 1 MiB. -/
def memory_access.too_large_env : memory_access.Env :=
  { memory_access.sample_env with
    argv := ["memory_access", "1234", "4096", "1048577"]
    strtoull := fun s => if s.length = 7 then 1048577 else 4096 }

/-- A run of `memory_access` asked for exactly the limit of 1 MiB. -/
def memory_access.limit_env : memory_access.Env :=
  { memory_access.sample_env with
    argv := ["memory_access", "1234", "4096", "1048576"]
    strtoull := fun s => if s.length = 7 then 1048576 else 4096
    tfp_kr := 5 }

/-! ## `pidinfo.c` -/

namespace pidinfo

/-- Status value `SIDL` defined at the top of `pidinfo.c`. -/
def SIDL : Nat := 1

/-- Status value `SRUN` defined at the top of `pidinfo.c`. -/
def SRUN : Nat := 2

/-- Status value `SSLEEP` defined at the top of `pidinfo.c`. -/
def SSLEEP : Nat := 3

/-- Status value `SSTOP` defined at the top of `pidinfo.c`. -/
def SSTOP : Nat := 4

/-- Status value `SZOMB` defined at the top of `pidinfo.c`. -/
def SZOMB : Nat := 5

/-- The fields of `struct proc_bsdshortinfo` that `pidinfo.c` uses. -/
structure proc_bsdshortinfo where
  pbsi_pid : Nat
  pbsi_ppid : Nat
  pbsi_status : Nat
  pbsi_uid : Nat
  pbsi_gid : Nat
  deriving DecidableEq, Repr

/-- The `switch` of `print_status` (lines 21-37): the value it assigns to the local
`status`, which is declared without an initial value; `none` when no `case` is taken and
the variable is left unassigned (the `switch` has no `default`). -/
def status_label (proc : proc_bsdshortinfo) : Option String :=
  if proc.pbsi_status = SIDL then some "IDLE"
  else if proc.pbsi_status = SRUN then some "RUN"
  else if proc.pbsi_status = SSLEEP then some "SLEEP"
  else if proc.pbsi_status = SSTOP then some "STOP"
  else if proc.pbsi_status = 5 then some "ZOMB"
  else none

/-- Function `print_status` of `pidinfo.c`: the text it prints, or `none` when `printf`
is handed the unassigned pointer `status`, where the behaviour is undefined. -/
def print_status (proc : proc_bsdshortinfo) : Option (List Event) :=
  match status_label proc with
  | some status => some [Event.out (" status: " ++ status ++ "\n")]
  | none => none

/-- A process record whose status field holds 0, a value of its type `uint32_t` that
is none of the five status values. -/
def unknown_status_proc : proc_bsdshortinfo :=
  { pbsi_pid := 1234, pbsi_ppid := 1, pbsi_status := 0, pbsi_uid := 501, pbsi_gid := 20 }

end pidinfo

/-! ## Theorems -/

/-! ### Output-only blocks -/

theorem isText_print_kern_error (msg : String) (kr : Int) :
    ∀ e ∈ simple_attach.print_kern_error msg kr, e.isText = true := by
  intro e he
  unfold simple_attach.print_kern_error at he
  split_ifs at he <;> simp at he <;> rcases he with rfl | rfl <;> rfl

theorem isText_hex_rows (fuel : Nat) (data : List Nat) (size base_addr i : Nat) :
    ∀ e ∈ memory_access.hex_rows fuel data size base_addr i, e.isText = true := by
  induction fuel generalizing i with
  | zero => intro e he; simp [memory_access.hex_rows] at he
  | succ k ih =>
    intro e he
    unfold memory_access.hex_rows at he
    split_ifs at he
    · rcases List.mem_append.mp he with h | h
      · simp only [memory_access.hex_row, List.mem_append, List.mem_singleton, List.mem_flatMap,
          List.mem_map, memory_access.hex_cell, memory_access.ascii_cell] at h
        rcases h with (((rfl | ⟨j, _, hj⟩) | rfl) | ⟨j, _, rfl⟩) | rfl
        · rfl
        · rcases hj with hj | hj
          · split_ifs at hj <;> simp at hj <;> subst hj <;> rfl
          · split_ifs at hj <;> simp at hj; subst hj; rfl
        · rfl
        · rfl
        · rfl
      · exact ih _ e h
    · simp at he

theorem isText_print_hex_dump (data : List Nat) (size base_addr : Nat) :
    ∀ e ∈ memory_access.print_hex_dump data size base_addr, e.isText = true :=
  isText_hex_rows _ _ _ _ _

/-- Filtering a block whose events all satisfy `q` with a predicate that rejects `q`. -/
theorem filter_eq_nil_of_class (q p : Event → Bool) (hp : ∀ e, q e = true → p e = false)
    (l : List Event) (hl : ∀ e ∈ l, q e = true) : l.filter p = [] := by
  rw [List.filter_eq_nil_iff]
  intro e he
  simp [hp e (hl e he)]

theorem isText_print_x86_64_registers (s : x86_thread_state64_t) :
    ∀ e ∈ register_access.print_x86_64_registers s, e.isText = true := by
  intro e he
  simp only [register_access.print_x86_64_registers, List.mem_cons, List.mem_singleton,
    List.not_mem_nil, or_false] at he
  rcases he with h | h | h | h | h | h | h | h | h | h | h | h | h <;> subst h <;> rfl

theorem isText_print_arm64_registers (s : arm_thread_state64_t) :
    ∀ e ∈ register_access.print_arm64_registers s, e.isText = true := by
  intro e he
  simp only [register_access.print_arm64_registers, List.mem_append, List.mem_map,
    List.mem_cons, List.mem_singleton, List.not_mem_nil, or_false] at he
  rcases he with (rfl | ⟨k, _, rfl⟩) | h
  · rfl
  · rfl
  · rcases h with h | h | h | h | h <;> subst h <;> rfl

theorem isThreadStep_of_isText (e : Event) (h : e.isText = true) : e.isThreadStep = true := by
  cases e <;> simp_all [Event.isText, Event.isThreadStep]

theorem isThreadStep_thread_step_x86 (i thread : Nat)
    (r : register_access.ThreadResp x86_thread_state64_t) :
    ∀ e ∈ register_access.thread_step_x86 i thread r, e.isThreadStep = true := by
  intro e he
  unfold register_access.thread_step_x86 at he
  simp only [List.mem_append, List.mem_cons, List.mem_singleton, List.not_mem_nil,
    or_false] at he
  rcases he with rfl | he
  · rfl
  · split_ifs at he <;>
      simp only [List.mem_append, List.mem_cons, List.mem_singleton, List.not_mem_nil,
        or_false, false_or] at he
    all_goals
      first
      | (subst he; rfl)
      | (rcases he with ((rfl | he) | rfl | rfl) | he
         · rfl
         · exact isThreadStep_of_isText e (isText_print_x86_64_registers _ e he)
         · rfl
         · rfl
         · first
           | (subst he; rfl)
           | (rcases he with (rfl | rfl) | rfl | rfl <;> rfl)
           | (rcases he with ((rfl | rfl) | rfl) | rfl | rfl <;> rfl))

theorem isThreadStep_thread_step_arm (i thread : Nat)
    (r : register_access.ThreadResp arm_thread_state64_t) :
    ∀ e ∈ register_access.thread_step_arm i thread r, e.isThreadStep = true := by
  intro e he
  unfold register_access.thread_step_arm at he
  simp only [List.mem_append, List.mem_cons, List.mem_singleton, List.not_mem_nil,
    or_false] at he
  rcases he with rfl | he
  · rfl
  · split_ifs at he <;>
      simp only [List.mem_append, List.mem_cons, List.mem_singleton, List.not_mem_nil,
        or_false, false_or] at he
    all_goals
      first
      | (subst he; rfl)
      | (rcases he with ((rfl | he) | rfl | rfl) | he
         · rfl
         · exact isThreadStep_of_isText e (isText_print_arm64_registers _ e he)
         · rfl
         · rfl
         · first
           | (subst he; rfl)
           | (rcases he with (rfl | rfl) | rfl | rfl <;> rfl)
           | (rcases he with ((rfl | rfl) | rfl) | rfl | rfl <;> rfl))

theorem isThreadStep_thread_step (arch : register_access.Arch) (i thread : Nat)
    (r : register_access.ThreadResp (register_access.Arch.State arch)) :
    ∀ e ∈ register_access.thread_step arch i thread r, e.isThreadStep = true := by
  intro e he
  cases arch with
  | x86_64 =>
    simp only [register_access.thread_step, List.mem_cons] at he
    rcases he with rfl | he
    · rfl
    · exact isThreadStep_thread_step_x86 i thread r e he
  | arm64 =>
    simp only [register_access.thread_step, List.mem_cons] at he
    rcases he with rfl | he
    · rfl
    · exact isThreadStep_thread_step_arm i thread r e he
  | other =>
    simp only [register_access.thread_step, register_access.step_header, List.mem_cons,
      List.mem_singleton, List.not_mem_nil, or_false] at he
    rcases he with rfl | rfl <;> rfl

theorem isThreadStep_thread_loop (arch : register_access.Arch)
    (resp : Nat → register_access.ThreadResp (register_access.Arch.State arch))
    (i : Nat) (threads : List Nat) :
    ∀ e ∈ register_access.thread_loop arch resp i threads, e.isThreadStep = true := by
  induction threads generalizing i with
  | nil => intro e he; simp [register_access.thread_loop] at he
  | cons t rest ih =>
    intro e he
    simp only [register_access.thread_loop, List.mem_append] at he
    rcases he with he | he
    · exact isThreadStep_thread_step arch i t (resp i) e he
    · exact ih (i + 1) e he

/-! ### C1: suspend/resume discipline -/

theorem isResume_and_class (t : Nat) :
    (fun e => isResume t e && isSuspendOrResume e) = isResume t := by
  funext e; cases e <;> simp [isResume, isSuspendOrResume]

theorem isSuspendOk_and_class (t : Nat) :
    (fun e => isSuspendOk t e && isSuspendOrResume e) = isSuspendOk t := by
  funext e; cases e <;> simp [isSuspendOk, isSuspendOrResume]

/-- The discipline only depends on the suspend and resume events of the trace. -/
theorem balanced_of_filter (tr : List Event)
    (h : SuspendResumeBalanced (tr.filter isSuspendOrResume)) : SuspendResumeBalanced tr := by
  intro t
  obtain ⟨h1, h2⟩ := h t
  have key : ∀ (p : Event → Bool) (l : List Event),
      (fun e => p e && isSuspendOrResume e) = p →
      (l.filter isSuspendOrResume).countP p = l.countP p := by
    intro p l hp
    rw [List.countP_filter, hp]
  constructor
  · intro n
    have hpre : (tr.take n).filter isSuspendOrResume <+: tr.filter isSuspendOrResume :=
      (List.take_prefix n tr).filter _
    rw [List.prefix_iff_eq_take] at hpre
    have := h1 (((tr.take n).filter isSuspendOrResume).length)
    rw [← hpre, key _ _ (isResume_and_class t), key _ _ (isSuspendOk_and_class t)] at this
    exact this
  · rw [key _ _ (isResume_and_class t), key _ _ (isSuspendOk_and_class t)] at h2
    exact h2

theorem balanced_nil : SuspendResumeBalanced [] := by
  intro t; simp

theorem balanced_failed_suspend (task : Nat) (kr : Int) (h : kr ≠ KERN_SUCCESS) :
    SuspendResumeBalanced [Event.task_suspend task kr] := by
  intro t
  constructor
  · intro n
    rcases n with _ | n <;> simp [isResume, isSuspendOk, h]
  · simp [isResume, isSuspendOk, h]

theorem balanced_pair (task : Nat) (skr kr : Int) (h : ¬ skr ≠ KERN_SUCCESS) :
    SuspendResumeBalanced [Event.task_suspend task skr, Event.task_resume task kr] := by
  have hs : skr = KERN_SUCCESS := not_not.mp h
  subst hs
  intro t
  constructor
  · intro n
    rcases n with _ | _ | n <;> simp [isResume, isSuspendOk, List.countP_cons]
  · simp [isResume, isSuspendOk, List.countP_cons]

theorem sr_rejects_text : ∀ e : Event, e.isText = true → isSuspendOrResume e = false := by
  intro e; cases e <;> simp [Event.isText, isSuspendOrResume]

theorem sr_rejects_thread_step :
    ∀ e : Event, e.isThreadStep = true → isSuspendOrResume e = false := by
  intro e; cases e <;> simp [Event.isThreadStep, isSuspendOrResume]

theorem filter_sr_attached (env : simple_attach.Env) :
    (simple_attach.attached env).trace.filter isSuspendOrResume =
      [Event.task_resume env.task env.resume_kr] := by
  simp only [simple_attach.attached, Run.after]
  split_ifs <;>
    simp [List.filter_append, List.filter_cons, List.filter_map, isSuspendOrResume,
      filter_eq_nil_of_class _ _ sr_rejects_text _ (isText_print_kern_error _ _)]

theorem balanced_simple_attach (env : simple_attach.Env) :
    SuspendResumeBalanced (simple_attach.main env).trace := by
  apply balanced_of_filter
  simp only [simple_attach.main]
  split_ifs <;>
    simp only [Run.after, List.filter_append, filter_sr_attached]  <;>
    simp [List.filter_cons, isSuspendOrResume,
      filter_eq_nil_of_class _ _ sr_rejects_text _ (isText_print_kern_error _ _)]
  all_goals first
    | exact balanced_nil
    | exact balanced_failed_suspend _ _ (by assumption)
    | exact balanced_pair _ _ _ (by assumption)

theorem filter_sr_write_step (env : memory_access.Env) (address size : Nat) :
    (memory_access.write_step env address size).filter isSuspendOrResume = [] := by
  simp only [memory_access.write_step]
  split_ifs <;>
    simp [List.filter_append, List.filter_cons, isSuspendOrResume,
      filter_eq_nil_of_class _ _ sr_rejects_text _ (isText_print_hex_dump _ _ _)]

theorem filter_sr_after_read (env : memory_access.Env) (address size : Nat) :
    (memory_access.after_read env address size).trace.filter isSuspendOrResume =
      [Event.task_resume env.task env.resume_kr] := by
  simp only [memory_access.after_read]
  split_ifs <;>
    simp [List.filter_append, List.filter_cons, isSuspendOrResume, filter_sr_write_step,
      filter_eq_nil_of_class _ _ sr_rejects_text _ (isText_print_hex_dump _ _ _)]

theorem balanced_memory_access (env : memory_access.Env) :
    SuspendResumeBalanced (memory_access.main env).trace := by
  apply balanced_of_filter
  simp only [memory_access.main]
  split_ifs <;>
    simp only [Run.after, List.filter_append, filter_sr_after_read]  <;>
    simp [List.filter_cons, isSuspendOrResume]
  all_goals first
    | exact balanced_nil
    | exact balanced_failed_suspend _ _ (by assumption)
    | exact balanced_pair _ _ _ (by assumption)

theorem filter_sr_with_threads (arch : register_access.Arch) (env : register_access.Env arch) :
    (register_access.with_threads arch env).trace.filter isSuspendOrResume =
      [Event.task_resume env.task env.resume_kr] := by
  simp [register_access.with_threads, List.filter_append, List.filter_cons, List.filter_map,
    isSuspendOrResume,
    filter_eq_nil_of_class _ _ sr_rejects_thread_step _ (isThreadStep_thread_loop _ _ _ _)]

theorem balanced_register_access (arch : register_access.Arch) (env : register_access.Env arch) :
    SuspendResumeBalanced (register_access.main arch env).trace := by
  apply balanced_of_filter
  simp only [register_access.main]
  split_ifs <;>
    simp only [Run.after, List.filter_append, filter_sr_with_threads]  <;>
    simp [List.filter_cons, isSuspendOrResume]
  all_goals first
    | exact balanced_nil
    | exact balanced_failed_suspend _ _ (by assumption)
    | exact balanced_pair _ _ _ (by assumption)

/-- C1: in `simple_attach`, `memory_access` and `register_access` (every build), for every
outcome of the kernel calls the trace of `main` keeps the suspend/resume discipline: at
every point of the run the `task_resume` calls on a task do not outnumber the
`task_suspend` calls on it that returned `KERN_SUCCESS` (so a resume only follows a
successful suspend), and when `main` returns the two numbers are equal. -/
theorem C1_suspend_resume_discipline :
    (∀ env : simple_attach.Env, SuspendResumeBalanced (simple_attach.main env).trace) ∧
    (∀ env : memory_access.Env, SuspendResumeBalanced (memory_access.main env).trace) ∧
    (∀ (arch : register_access.Arch) (env : register_access.Env arch),
      SuspendResumeBalanced (register_access.main arch env).trace) :=
  ⟨balanced_simple_attach, balanced_memory_access, balanced_register_access⟩

/-! ### C2: write followed by read -/

theorem Mem.write_other (m : Mem) (address : Nat) (bytes : List Nat) (x : Nat)
    (h : ∀ i, i < bytes.length → (address + i) % 2 ^ 64 ≠ x) :
    Mem.write m address bytes x = m x := by
  induction bytes generalizing m address with
  | nil => rfl
  | cons b rest ih =>
    rw [Mem.write, ih]
    · have h0 := h 0 (by simp)
      simp only [Nat.add_zero] at h0
      show (if x = address % 2 ^ 64 then b else m x) = m x
      rw [if_neg (Ne.symm h0)]
    · intro i hi
      have := h (i + 1) (by simpa using hi)
      rwa [Nat.add_assoc, Nat.add_comm 1 i]

theorem Mem.write_at (m : Mem) (address : Nat) (bytes : List Nat) (i : Nat)
    (hlen : bytes.length ≤ 2 ^ 64) (hi : i < bytes.length) :
    Mem.write m address bytes ((address + i) % 2 ^ 64) = bytes.getD i 0 := by
  induction bytes generalizing m address i with
  | nil => simp at hi
  | cons b rest ih =>
    simp only [List.length_cons] at hlen hi
    rw [Mem.write]
    cases i with
    | zero =>
      rw [Nat.add_zero, Mem.write_other]
      · simp
      · intro j hj
        norm_num at hlen ⊢
        omega
    | succ k =>
      have := ih (fun a => if a = address % 2 ^ 64 then b else m a) (address + 1) k
        (by omega) (by omega)
      rw [Nat.add_assoc, Nat.add_comm 1 k] at this
      simpa using this

/-- A full-length read after a write at the same address returns the written bytes. -/
theorem Mem.read_write (m : Mem) (address : Nat) (bytes : List Nat)
    (hlen : bytes.length ≤ 2 ^ 64) :
    Mem.read (Mem.write m address bytes) address bytes.length = bytes := by
  apply List.ext_getElem
  · simp [Mem.read]
  · intro i h1 h2
    simp only [Mem.read, List.getElem_map, List.getElem_range]
    rw [Mem.write_at m address bytes i hlen h2]
    simp [List.getD_eq_getElem?_getD, List.getElem?_eq_getElem h2]

theorem length_test_pattern (size : Nat) : (memory_access.test_pattern size).length = size := by
  simp [memory_access.test_pattern]

theorem getD_test_pattern (size i : Nat) (h : i < size) :
    (memory_access.test_pattern size).getD i 0 = i % 256 := by
  have h255 : i &&& 0xFF = i % 256 := Nat.and_pow_two_sub_one_eq_mod i 8
  simp [memory_access.test_pattern, List.getD_eq_getElem?_getD, h, h255]

theorem mem_consistent_filter (m : Mem) (tr : List Event) :
    mem_consistent m tr = mem_consistent m (tr.filter isVmAccess) := by
  induction tr generalizing m with
  | nil => rfl
  | cons e rest ih =>
    cases e <;> simp [mem_consistent, isVmAccess, List.filter_cons, ih]

theorem vm_rejects_text : ∀ e : Event, e.isText = true → isVmAccess e = false := by
  intro e; cases e <;> simp [Event.isText, isVmAccess]

theorem filter_vm_main (env : memory_access.Env)
    (hargc : 4 ≤ env.argv.length)
    (hsize : env.strtoull (argvAt env.argv 3) ≤ 1048576)
    (htfp : env.tfp_kr = KERN_SUCCESS) (hsus : env.suspend_kr = KERN_SUCCESS)
    (hread : env.read_kr = KERN_SUCCESS)
    (hyes : memory_access.answered_yes env.response = true)
    (hwrite : env.write_kr = KERN_SUCCESS) :
    (memory_access.main env).trace.filter isVmAccess =
      [Event.mach_vm_read env.task (env.strtoull (argvAt env.argv 2))
         (env.strtoull (argvAt env.argv 3)) env.read_kr env.read_data env.read_bytes
         env.read_count,
       Event.mach_vm_write env.task (env.strtoull (argvAt env.argv 2))
         (memory_access.test_pattern (env.strtoull (argvAt env.argv 3)))
         (env.strtoull (argvAt env.argv 3)) env.write_kr,
       Event.mach_vm_read env.task (env.strtoull (argvAt env.argv 2))
         (env.strtoull (argvAt env.argv 3)) env.verify_kr env.verify_data env.verify_bytes
         env.verify_count] := by
  have h32 : env.strtoull (argvAt env.argv 3) % 2 ^ 32 = env.strtoull (argvAt env.argv 3) :=
    Nat.mod_eq_of_lt (by omega)
  have h1 : ¬ env.argv.length < 4 := by omega
  have h2 : ¬ env.strtoull (argvAt env.argv 3) > 1024 * 1024 := by omega
  simp only [memory_access.main, memory_access.after_read, memory_access.write_step, h1, h2,
    htfp, hsus, hread, hyes, hwrite, h32, if_true, if_false, ne_eq, not_true_eq_false,
    Run.after]
  split_ifs <;>
    simp [List.filter_append, List.filter_cons, isVmAccess,
      filter_eq_nil_of_class _ _ vm_rejects_text _ (isText_print_hex_dump _ _ _)]

/-- C2: in `memory_access`, against a byte store for the target's memory, for every
address and every size `<= 1048576`: when the user answers yes and both the
`mach_vm_write` and the full-length verification `mach_vm_read` succeed, the run writes
the test pattern at the address and reads it back at the same address and size, the
bytes read back are exactly the bytes written, and byte `i` of the pattern is
`i mod 256` (for size 8: `0x00..0x07`). -/
theorem C2_write_read_round_trip (env : memory_access.Env) (m : Mem)
    (hargc : 4 ≤ env.argv.length)
    (hsize : env.strtoull (argvAt env.argv 3) ≤ 1048576)
    (htfp : env.tfp_kr = KERN_SUCCESS) (hsus : env.suspend_kr = KERN_SUCCESS)
    (hread : env.read_kr = KERN_SUCCESS)
    (hyes : memory_access.answered_yes env.response = true)
    (hwrite : env.write_kr = KERN_SUCCESS)
    (hverify : env.verify_kr = KERN_SUCCESS)
    (hfull : env.verify_count = env.strtoull (argvAt env.argv 3))
    (hmem : mem_consistent m (memory_access.main env).trace = true) :
    Event.mach_vm_write env.task (env.strtoull (argvAt env.argv 2))
        (memory_access.test_pattern (env.strtoull (argvAt env.argv 3)))
        (env.strtoull (argvAt env.argv 3)) KERN_SUCCESS ∈ (memory_access.main env).trace ∧
    Event.mach_vm_read env.task (env.strtoull (argvAt env.argv 2))
        (env.strtoull (argvAt env.argv 3)) KERN_SUCCESS env.verify_data env.verify_bytes
        (env.strtoull (argvAt env.argv 3)) ∈ (memory_access.main env).trace ∧
    env.verify_bytes = memory_access.test_pattern (env.strtoull (argvAt env.argv 3)) ∧
    (∀ i, i < env.strtoull (argvAt env.argv 3) →
      (memory_access.test_pattern (env.strtoull (argvAt env.argv 3))).getD i 0 = i % 256) ∧
    memory_access.test_pattern 8 = [0, 1, 2, 3, 4, 5, 6, 7] := by
  have hf := filter_vm_main env hargc hsize htfp hsus hread hyes hwrite
  have hmemW : Event.mach_vm_write env.task (env.strtoull (argvAt env.argv 2))
        (memory_access.test_pattern (env.strtoull (argvAt env.argv 3)))
        (env.strtoull (argvAt env.argv 3)) KERN_SUCCESS ∈
        (memory_access.main env).trace.filter isVmAccess := by
    rw [hf, hwrite]; simp
  have hmemR : Event.mach_vm_read env.task (env.strtoull (argvAt env.argv 2))
        (env.strtoull (argvAt env.argv 3)) KERN_SUCCESS env.verify_data env.verify_bytes
        (env.strtoull (argvAt env.argv 3)) ∈
        (memory_access.main env).trace.filter isVmAccess := by
    rw [hf, hverify, hfull]; simp
  refine ⟨(List.mem_filter.mp hmemW).1, (List.mem_filter.mp hmemR).1, ?_,
    fun i hi => getD_test_pattern _ i hi, by decide⟩
  rw [mem_consistent_filter, hf] at hmem
  simp only [mem_consistent, hwrite, hverify, hfull, if_true, true_and, and_self,
    Bool.and_eq_true, decide_eq_true_eq, Bool.and_true] at hmem
  have htake : (memory_access.test_pattern (env.strtoull (argvAt env.argv 3))).take
      (env.strtoull (argvAt env.argv 3)) =
      memory_access.test_pattern (env.strtoull (argvAt env.argv 3)) :=
    List.take_of_length_le (by rw [length_test_pattern])
  have hrt := Mem.read_write m (env.strtoull (argvAt env.argv 2))
    (memory_access.test_pattern (env.strtoull (argvAt env.argv 3)))
    (by rw [length_test_pattern]; norm_num; omega)
  rw [length_test_pattern] at hrt
  rw [htake, hrt] at hmem
  exact hmem.2

theorem C2_write_read_round_trip_witness :
    mem_consistent memory_access.sample_mem
      (memory_access.main memory_access.sample_env).trace = true ∧
    memory_access.sample_env.verify_bytes = memory_access.test_pattern 8 :=
  ⟨by rfl,
   (C2_write_read_round_trip memory_access.sample_env memory_access.sample_mem
    (by decide) (by decide) rfl rfl rfl (by decide) rfl rfl rfl (by rfl)).2.2.1⟩

/-! ### C3: the count returned by `thread_get_state` -/

/-- Every iteration of the register loop is a contiguous part of the loop's trace. -/
theorem thread_step_infix_thread_loop (arch : register_access.Arch)
    (resp : Nat → register_access.ThreadResp (register_access.Arch.State arch))
    (threads : List Nat) (start i : Nat) (hi : i < threads.length) :
    register_access.thread_step arch (start + i) (threads.getD i 0) (resp (start + i)) <:+:
      register_access.thread_loop arch resp start threads := by
  induction threads generalizing start i with
  | nil => simp at hi
  | cons t rest ih =>
    cases i with
    | zero =>
      simp only [register_access.thread_loop, Nat.add_zero, List.getD_cons_zero]
      exact (List.prefix_append _ _).isInfix
    | succ k =>
      have hk : k < rest.length := by simpa using hi
      have h := ih (start + 1) k hk
      simp only [register_access.thread_loop, List.getD_cons_succ]
      have e : start + 1 + k = start + (k + 1) := by omega
      rw [e] at h
      exact h.trans (List.suffix_append _ _).isInfix

/-- When `task_threads` succeeded, the register loop is a contiguous part of the run. -/
theorem thread_loop_infix_main (arch : register_access.Arch) (env : register_access.Env arch)
    (hargc : env.argv.length = 2) (htfp : env.tfp_kr = KERN_SUCCESS)
    (hsus : env.suspend_kr = KERN_SUCCESS) (hthr : env.threads_kr = KERN_SUCCESS) :
    register_access.thread_loop arch env.thread 0 env.threads <:+:
      (register_access.main arch env).trace := by
  simp only [register_access.main, register_access.with_threads, hargc, htfp, hsus, hthr,
    ne_eq, not_true_eq_false, if_false, Run.after]
  refine List.IsInfix.trans ?_ (List.suffix_append _ _).isInfix
  refine List.IsInfix.trans ?_ (List.suffix_append _ _).isInfix
  refine List.IsInfix.trans ?_ (List.suffix_append _ _).isInfix
  refine List.IsInfix.trans ?_ (List.prefix_append _ _).isInfix
  refine List.IsInfix.trans ?_ (List.prefix_append _ _).isInfix
  exact List.infix_append _ _ _

theorem thread_step_infix_main (arch : register_access.Arch) (env : register_access.Env arch)
    (i : Nat) (hi : i < env.threads.length)
    (hargc : env.argv.length = 2) (htfp : env.tfp_kr = KERN_SUCCESS)
    (hsus : env.suspend_kr = KERN_SUCCESS) (hthr : env.threads_kr = KERN_SUCCESS) :
    register_access.thread_step arch i (env.threads.getD i 0) (env.thread i) <:+:
      (register_access.main arch env).trace := by
  have h := thread_step_infix_thread_loop arch env.thread env.threads 0 i hi
  rw [Nat.zero_add] at h
  exact h.trans (thread_loop_infix_main arch env hargc htfp hsus hthr)

theorem x86_step_reads_with_expected_count (i th : Nat)
    (r : register_access.ThreadResp x86_thread_state64_t) (t f c : Nat) (kr : Int)
    (st : RegState) (co : Nat)
    (h : Event.thread_get_state t f c kr st co ∈
      register_access.thread_step register_access.Arch.x86_64 i th r) :
    f = x86_THREAD_STATE64 ∧ c = x86_THREAD_STATE64_COUNT := by
  simp only [register_access.thread_step, register_access.step_header,
    register_access.thread_step_x86, register_access.print_x86_64_registers] at h
  split_ifs at h <;> simp at h <;> aesop

theorem arm_step_reads_with_expected_count (i th : Nat)
    (r : register_access.ThreadResp arm_thread_state64_t) (t f c : Nat) (kr : Int)
    (st : RegState) (co : Nat)
    (h : Event.thread_get_state t f c kr st co ∈
      register_access.thread_step register_access.Arch.arm64 i th r) :
    f = ARM_THREAD_STATE64 ∧ c = ARM_THREAD_STATE64_COUNT := by
  simp only [register_access.thread_step, register_access.step_header,
    register_access.thread_step_arm, register_access.print_arm64_registers] at h
  split_ifs at h <;> simp at h <;> aesop

/-- C3 (as the code behaves): in both register builds every iteration of the loop is
part of the run; each `thread_get_state` of an iteration passes the flavor and the
expected count of the build as input count; when the first read returns
`KERN_SUCCESS`, whatever count comes back, the snapshot is printed and written back
with the returned count; a read is treated as failed only on a code other than
`KERN_SUCCESS`, and then the iteration is the read followed by the error message. -/
theorem C3_expected_count_passed_returned_count_unchecked :
    (∀ (arch : register_access.Arch) (env : register_access.Env arch) (i : Nat),
      i < env.threads.length → env.argv.length = 2 → env.tfp_kr = KERN_SUCCESS →
      env.suspend_kr = KERN_SUCCESS → env.threads_kr = KERN_SUCCESS →
      register_access.thread_step arch i (env.threads.getD i 0) (env.thread i) <:+:
        (register_access.main arch env).trace) ∧
    (∀ (i th : Nat) (r : register_access.ThreadResp x86_thread_state64_t),
      Event.thread_get_state th x86_THREAD_STATE64 x86_THREAD_STATE64_COUNT r.get_kr
          (RegState.x86 r.state) r.state_count ∈
        register_access.thread_step register_access.Arch.x86_64 i th r ∧
      (∀ t f c kr st co, Event.thread_get_state t f c kr st co ∈
          register_access.thread_step register_access.Arch.x86_64 i th r →
        f = x86_THREAD_STATE64 ∧ c = x86_THREAD_STATE64_COUNT) ∧
      (r.get_kr = KERN_SUCCESS →
        register_access.print_x86_64_registers r.state <:+:
          register_access.thread_step register_access.Arch.x86_64 i th r ∧
        Event.thread_set_state th x86_THREAD_STATE64
            (RegState.x86 { r.state with __rax := 0xDEADBEEFCAFEBABE }) r.state_count r.set_kr ∈
          register_access.thread_step register_access.Arch.x86_64 i th r) ∧
      (r.get_kr ≠ KERN_SUCCESS →
        register_access.thread_step register_access.Arch.x86_64 i th r =
          [register_access.step_header i th,
           Event.thread_get_state th x86_THREAD_STATE64 x86_THREAD_STATE64_COUNT r.get_kr
             (RegState.x86 r.state) r.state_count,
           Event.err ("  Error: thread_get_state() failed for thread " ++
             fmt_d (asInt32 i) ++ "\n")])) ∧
    (∀ (i th : Nat) (r : register_access.ThreadResp arm_thread_state64_t),
      Event.thread_get_state th ARM_THREAD_STATE64 ARM_THREAD_STATE64_COUNT r.get_kr
          (RegState.arm r.state) r.state_count ∈
        register_access.thread_step register_access.Arch.arm64 i th r ∧
      (∀ t f c kr st co, Event.thread_get_state t f c kr st co ∈
          register_access.thread_step register_access.Arch.arm64 i th r →
        f = ARM_THREAD_STATE64 ∧ c = ARM_THREAD_STATE64_COUNT) ∧
      (r.get_kr = KERN_SUCCESS →
        register_access.print_arm64_registers r.state <:+:
          register_access.thread_step register_access.Arch.arm64 i th r ∧
        Event.thread_set_state th ARM_THREAD_STATE64
            (RegState.arm { r.state with __x := r.state.__x.set 0 0xDEADBEEFCAFEBABE })
            r.state_count r.set_kr ∈
          register_access.thread_step register_access.Arch.arm64 i th r) ∧
      (r.get_kr ≠ KERN_SUCCESS →
        register_access.thread_step register_access.Arch.arm64 i th r =
          [register_access.step_header i th,
           Event.thread_get_state th ARM_THREAD_STATE64 ARM_THREAD_STATE64_COUNT r.get_kr
             (RegState.arm r.state) r.state_count,
           Event.err ("  Error: thread_get_state() failed for thread " ++
             fmt_d (asInt32 i) ++ "\n")])) := by
  refine ⟨thread_step_infix_main, ?_, ?_⟩
  · intro i th r
    refine ⟨by simp [register_access.thread_step, register_access.thread_step_x86],
      x86_step_reads_with_expected_count i th r, ?_, ?_⟩
    · intro hok
      simp only [register_access.thread_step, register_access.thread_step_x86, hok, ne_eq,
        not_true_eq_false, if_false]
      constructor
      · refine List.IsInfix.trans ?_ (List.suffix_cons _ _).isInfix
        refine List.IsInfix.trans ?_ (List.suffix_append _ _).isInfix
        refine List.IsInfix.trans ?_ (List.prefix_append _ _).isInfix
        refine List.IsInfix.trans ?_ (List.prefix_append _ _).isInfix
        exact (List.suffix_append _ _).isInfix
      · simp
    · intro hfail
      simp [register_access.thread_step, register_access.thread_step_x86, hfail]
  · intro i th r
    refine ⟨by simp [register_access.thread_step, register_access.thread_step_arm],
      arm_step_reads_with_expected_count i th r, ?_, ?_⟩
    · intro hok
      simp only [register_access.thread_step, register_access.thread_step_arm, hok, ne_eq,
        not_true_eq_false, if_false]
      constructor
      · refine List.IsInfix.trans ?_ (List.suffix_cons _ _).isInfix
        refine List.IsInfix.trans ?_ (List.suffix_append _ _).isInfix
        refine List.IsInfix.trans ?_ (List.prefix_append _ _).isInfix
        refine List.IsInfix.trans ?_ (List.prefix_append _ _).isInfix
        exact (List.suffix_append _ _).isInfix
      · simp
    · intro hfail
      simp [register_access.thread_step, register_access.thread_step_arm, hfail]

/-- C3 as stated fails: in the run `short_count_env` of the x86_64 build the read of
thread 0 returns `KERN_SUCCESS` with count 40, not 42, and still the snapshot is
printed, it is written back, and no read failure is reported. -/
theorem C3_returned_count_mismatch_accepted :
    (register_access.short_count_env.thread 0).get_kr = KERN_SUCCESS ∧
    (register_access.short_count_env.thread 0).state_count ≠ x86_THREAD_STATE64_COUNT ∧
    register_access.print_x86_64_registers register_access.sample_state <:+:
      (register_access.main register_access.Arch.x86_64 register_access.short_count_env).trace ∧
    Event.thread_set_state 7 x86_THREAD_STATE64
      (RegState.x86 { register_access.sample_state with __rax := 0xDEADBEEFCAFEBABE }) 40 0 ∈
      (register_access.main register_access.Arch.x86_64 register_access.short_count_env).trace ∧
    Event.err "  Error: thread_get_state() failed for thread 0\n" ∉
      (register_access.main register_access.Arch.x86_64 register_access.short_count_env).trace := by
  refine ⟨by decide, by decide, ?_, ?_, ?_⟩
  · decide
  · decide
  · decide

theorem C3_expected_count_passed_returned_count_unchecked_witness :
    register_access.thread_step register_access.Arch.x86_64 0 7
        (register_access.short_count_env.thread 0) <:+:
      (register_access.main register_access.Arch.x86_64 register_access.short_count_env).trace ∧
    (register_access.print_x86_64_registers register_access.sample_state <:+:
        register_access.thread_step register_access.Arch.x86_64 0 7
          (register_access.short_count_env.thread 0) ∧
      Event.thread_set_state 7 x86_THREAD_STATE64
          (RegState.x86 { register_access.sample_state with __rax := 0xDEADBEEFCAFEBABE })
          40 0 ∈
        register_access.thread_step register_access.Arch.x86_64 0 7
          (register_access.short_count_env.thread 0)) :=
  ⟨C3_expected_count_passed_returned_count_unchecked.1 register_access.Arch.x86_64
    register_access.short_count_env 0 (by decide) rfl rfl rfl rfl,
   (C3_expected_count_passed_returned_count_unchecked.2.1 0 7
    (register_access.short_count_env.thread 0)).2.2.1 rfl⟩

/-! ### C4: restoring the modified register -/

/-- C4, the code at the failing input: in the run `failed_restore_env` the second
`thread_set_state` of thread 7 returns `KERN_FAILURE`; the program still prints
"Restored RAX to original value", while the registers of the thread, which started as
the snapshot that was read, hold `0xDEADBEEFCAFEBABE` in RAX and so differ from it. -/
theorem C4_restore_reported_although_write_failed :
    Event.thread_set_state 7 x86_THREAD_STATE64 (RegState.x86 register_access.sample_state) 42
        KERN_FAILURE ∈
      (register_access.main register_access.Arch.x86_64 register_access.failed_restore_env).trace ∧
    Event.out "  ✓ Restored RAX to original value\n" ∈
      (register_access.main register_access.Arch.x86_64 register_access.failed_restore_env).trace ∧
    regs_after 7 (RegState.x86 register_access.sample_state)
        (register_access.main register_access.Arch.x86_64
          register_access.failed_restore_env).trace =
      RegState.x86 { register_access.sample_state with __rax := 0xDEADBEEFCAFEBABE } ∧
    regs_after 7 (RegState.x86 register_access.sample_state)
        (register_access.main register_access.Arch.x86_64
          register_access.failed_restore_env).trace ≠
      RegState.x86 register_access.sample_state := by
  refine ⟨by decide, by decide, by decide, by decide⟩

theorem regs_after_append (th : Nat) (s : RegState) (l rest : List Event) :
    regs_after th s (l ++ rest) = regs_after th (regs_after th s l) rest := by
  induction l generalizing s with
  | nil => rfl
  | cons e l ih => cases e <;> simp [regs_after, ih]

theorem regs_after_text (th : Nat) (s : RegState) (l : List Event)
    (hl : ∀ e ∈ l, e.isText = true) : regs_after th s l = s := by
  induction l with
  | nil => rfl
  | cons e l ih =>
    have he := hl e (List.mem_cons_self _ _)
    have ih2 := ih (fun x hx => hl x (List.mem_cons_of_mem _ hx))
    cases e <;> simp_all [regs_after, Event.isText]

/-- Where the defect is: when the restoring `thread_set_state` does return
`KERN_SUCCESS`, the registers after the x86_64 step are the snapshot read at its start. -/
theorem regs_after_x86_step_of_restore_ok (i th : Nat)
    (r : register_access.ThreadResp x86_thread_state64_t)
    (hget : r.get_kr = KERN_SUCCESS) (hset : r.set_kr = KERN_SUCCESS)
    (hrestore : r.restore_kr = KERN_SUCCESS) :
    regs_after th (RegState.x86 r.state)
      (register_access.thread_step register_access.Arch.x86_64 i th r) =
      RegState.x86 r.state := by
  simp only [register_access.thread_step, register_access.step_header,
    register_access.thread_step_x86, hget, hset, hrestore, ne_eq, not_true_eq_false, if_false,
    regs_after_append, regs_after_text _ _ _ (isText_print_x86_64_registers r.state),
    List.cons_append, List.nil_append, regs_after]
  split_ifs <;> simp [regs_after]

/-- The same for the arm64 step and X0. -/
theorem regs_after_arm_step_of_restore_ok (i th : Nat)
    (r : register_access.ThreadResp arm_thread_state64_t)
    (hget : r.get_kr = KERN_SUCCESS) (hset : r.set_kr = KERN_SUCCESS)
    (hrestore : r.restore_kr = KERN_SUCCESS) :
    regs_after th (RegState.arm r.state)
      (register_access.thread_step register_access.Arch.arm64 i th r) =
      RegState.arm r.state := by
  simp only [register_access.thread_step, register_access.step_header,
    register_access.thread_step_arm, hget, hset, hrestore, ne_eq, not_true_eq_false, if_false,
    regs_after_append, regs_after_text _ _ _ (isText_print_arm64_registers r.state),
    List.cons_append, List.nil_append, regs_after]
  have hx : ∀ l : List Nat, l.set 0 (l[0]?.getD 0) = l := by
    intro l; cases l <;> simp
  split_ifs <;> simp [regs_after, hx]

/-! ### C5: release of the thread list -/

theorem after_task_threads_text (l rest : List Event) (hl : ∀ e ∈ l, e.isText = true) :
    after_task_threads (l ++ rest) = after_task_threads rest := by
  induction l with
  | nil => rfl
  | cons e l ih =>
    have he := hl e (List.mem_cons_self _ _)
    have ih2 := ih (fun x hx => hl x (List.mem_cons_of_mem _ hx))
    cases e <;> simp_all [after_task_threads, Event.isText]

theorem release_rejects_text : ∀ e : Event, e.isText = true → isRelease e = false := by
  intro e; cases e <;> simp [Event.isText, isRelease]

theorem release_rejects_thread_step :
    ∀ e : Event, e.isThreadStep = true → isRelease e = false := by
  intro e; cases e <;> simp [Event.isThreadStep, isRelease]

theorem thread_list_bytes (n : Nat) (h : n < 2 ^ 32) :
    n * sizeof_thread_act_t % 2 ^ 64 = n * sizeof_thread_act_t := by
  apply Nat.mod_eq_of_lt
  simp only [sizeof_thread_act_t]
  norm_num at h ⊢
  omega

theorem releases_simple_attach (env : simple_attach.Env) (hs : env.suspended)
    (hT : env.threads.length < 2 ^ 32) :
    (env.threads_kr = KERN_SUCCESS →
      (after_task_threads (simple_attach.main env).trace).filter isRelease =
        env.threads.map (fun t => Event.mach_port_deallocate env.self t) ++
        [Event.vm_deallocate env.self env.thread_list (env.threads.length * sizeof_thread_act_t),
         Event.mach_port_deallocate env.self env.task]) ∧
    (env.threads_kr ≠ KERN_SUCCESS →
      (after_task_threads (simple_attach.main env).trace).filter isRelease =
        [Event.mach_port_deallocate env.self env.task]) := by
  obtain ⟨h1, h2, h3, h4⟩ := hs
  have h2' : ¬ env.atoi (argvAt env.argv 1) ≤ 0 := by omega
  constructor
  · intro hk
    simp only [simple_attach.main, simple_attach.attached, h1, h2', h3, h4, hk, ne_eq,
      not_true_eq_false, if_false, if_true, Run.after, thread_list_bytes _ hT]
    split_ifs <;>
      simp [after_task_threads, List.filter_append, List.filter_cons, isRelease,
        List.filter_map, Function.comp_def,
        filter_eq_nil_of_class _ _ release_rejects_text _ (isText_print_kern_error _ _)]
  · intro hk
    simp only [simple_attach.main, simple_attach.attached, h1, h2', h3, h4, hk, ne_eq,
      not_true_eq_false, if_false, if_true, Run.after]
    split_ifs <;>
      simp [after_task_threads, List.filter_append, List.filter_cons, isRelease,
        filter_eq_nil_of_class _ _ release_rejects_text _ (isText_print_kern_error _ _)]

theorem releases_register_access (arch : register_access.Arch) (env : register_access.Env arch)
    (hs : env.suspended) (hT : env.threads.length < 2 ^ 32) :
    (env.threads_kr = KERN_SUCCESS →
      (after_task_threads (register_access.main arch env).trace).filter isRelease =
        env.threads.map (fun t => Event.mach_port_deallocate env.self t) ++
        [Event.vm_deallocate env.self env.thread_list (env.threads.length * sizeof_thread_act_t),
         Event.mach_port_deallocate env.self env.task]) ∧
    (env.threads_kr ≠ KERN_SUCCESS →
      (after_task_threads (register_access.main arch env).trace).filter isRelease =
        [Event.mach_port_deallocate env.self env.task]) := by
  obtain ⟨h1, h2, h3⟩ := hs
  constructor
  · intro hk
    simp only [register_access.main, register_access.with_threads, h1, h2, h3, hk, ne_eq,
      not_true_eq_false, if_false, Run.after, thread_list_bytes _ hT]
    simp [after_task_threads, List.filter_append, List.filter_cons,
      isRelease, List.filter_map, Function.comp_def,
      filter_eq_nil_of_class _ _ release_rejects_thread_step _ (isThreadStep_thread_loop _ _ _ _)]
  · intro hk
    simp [register_access.main, h1, h2, h3, hk, Run.after, after_task_threads,
      List.filter_cons, isRelease]

/-- C5: in `simple_attach` and in every build of `register_access`, on a run that
reaches `task_threads`, with a thread count that fits its 32-bit type: when the call
succeeds with the thread list `threads` (count `T`), the releases made from that point
to the end of `main` are, in order, one `mach_port_deallocate` for each element of the
list (index 0 to `T - 1`, whatever the register reads returned), then one
`vm_deallocate` of the array with length `T * sizeof (thread_act_t)`, then the release
of the task handle; when the call fails the only release is that of the task handle. -/
theorem C5_thread_list_released_once :
    (∀ env : simple_attach.Env, env.suspended → env.threads.length < 2 ^ 32 →
      (env.threads_kr = KERN_SUCCESS →
        (after_task_threads (simple_attach.main env).trace).filter isRelease =
          env.threads.map (fun t => Event.mach_port_deallocate env.self t) ++
          [Event.vm_deallocate env.self env.thread_list
             (env.threads.length * sizeof_thread_act_t),
           Event.mach_port_deallocate env.self env.task]) ∧
      (env.threads_kr ≠ KERN_SUCCESS →
        (after_task_threads (simple_attach.main env).trace).filter isRelease =
          [Event.mach_port_deallocate env.self env.task])) ∧
    (∀ (arch : register_access.Arch) (env : register_access.Env arch),
      env.suspended → env.threads.length < 2 ^ 32 →
      (env.threads_kr = KERN_SUCCESS →
        (after_task_threads (register_access.main arch env).trace).filter isRelease =
          env.threads.map (fun t => Event.mach_port_deallocate env.self t) ++
          [Event.vm_deallocate env.self env.thread_list
             (env.threads.length * sizeof_thread_act_t),
           Event.mach_port_deallocate env.self env.task]) ∧
      (env.threads_kr ≠ KERN_SUCCESS →
        (after_task_threads (register_access.main arch env).trace).filter isRelease =
          [Event.mach_port_deallocate env.self env.task])) :=
  ⟨releases_simple_attach, releases_register_access⟩

theorem C5_thread_list_released_once_witness :
    (after_task_threads (simple_attach.main simple_attach.sample_env).trace).filter isRelease =
        [Event.mach_port_deallocate 259 7, Event.mach_port_deallocate 259 9,
         Event.vm_deallocate 259 4096 8, Event.mach_port_deallocate 259 5123] ∧
    (after_task_threads (register_access.main register_access.Arch.x86_64
        register_access.short_count_env).trace).filter isRelease =
        [Event.mach_port_deallocate 259 7,
         Event.vm_deallocate 259 4096 4, Event.mach_port_deallocate 259 5123] :=
  ⟨(C5_thread_list_released_once.1 simple_attach.sample_env
      ⟨rfl, by decide, rfl, rfl⟩ (by decide)).1 rfl,
   (C5_thread_list_released_once.2 register_access.Arch.x86_64 register_access.short_count_env
      ⟨rfl, rfl, rfl⟩ (by decide)).1 rfl⟩

/-! ### C6: release of the buffers returned by `mach_vm_read` -/

theorem buffers_released_filter (self : Nat) (held : Option (Nat × Nat)) (tr : List Event) :
    buffers_released self held tr = buffers_released self held (tr.filter isReadOrFree) := by
  induction tr generalizing held with
  | nil => rfl
  | cons e rest ih =>
    cases e <;> simp [buffers_released, isReadOrFree, List.filter_cons, ih]

theorem readfree_rejects_text : ∀ e : Event, e.isText = true → isReadOrFree e = false := by
  intro e; cases e <;> simp [Event.isText, isReadOrFree]

theorem filter_readfree_write_step (env : memory_access.Env) (address size : Nat) :
    (memory_access.write_step env address size).filter isReadOrFree =
      if env.write_kr ≠ KERN_SUCCESS then []
      else if env.verify_kr = KERN_SUCCESS then
        [Event.mach_vm_read env.task address size env.verify_kr env.verify_data
           env.verify_bytes env.verify_count,
         Event.vm_deallocate env.self env.verify_data env.verify_count]
      else
        [Event.mach_vm_read env.task address size env.verify_kr env.verify_data
           env.verify_bytes env.verify_count] := by
  simp only [memory_access.write_step]
  split_ifs <;>
    simp [List.filter_append, List.filter_cons, isReadOrFree,
      filter_eq_nil_of_class _ _ readfree_rejects_text _ (isText_print_hex_dump _ _ _)]

theorem filter_readfree_after_read (env : memory_access.Env) (address size : Nat) :
    (memory_access.after_read env address size).trace.filter isReadOrFree =
      Event.vm_deallocate env.self env.read_data env.read_count ::
        (if memory_access.answered_yes env.response then
          (memory_access.write_step env address size).filter isReadOrFree
         else []) := by
  simp only [memory_access.after_read]
  split_ifs <;>
    simp [List.filter_append, List.filter_cons, isReadOrFree,
      filter_eq_nil_of_class _ _ readfree_rejects_text _ (isText_print_hex_dump _ _ _)]

/-- C6: in `memory_access`, for every outcome of the calls, the trace of `main` keeps the
buffer discipline: every `mach_vm_read` that returns `KERN_SUCCESS` is followed, before
any later `mach_vm_read` and before `main` returns, by one `vm_deallocate` of exactly
the address and count that read returned, and no other `vm_deallocate` is made (none
for a failed read). -/
theorem C6_read_buffers_released (env : memory_access.Env) :
    buffers_released env.self none (memory_access.main env).trace = true := by
  rw [buffers_released_filter]
  simp only [memory_access.main]
  split_ifs with h1 h2 h3 h4 h5 <;>
    simp only [Run.after, List.filter_append, filter_readfree_after_read,
      filter_readfree_write_step] <;>
    (try split_ifs) <;>
    simp_all [List.filter_cons, isReadOrFree, buffers_released]

/-! ### C7: a short read is a success -/

theorem isOut_hex_rows (fuel : Nat) (data : List Nat) (size base_addr i : Nat) :
    ∀ e ∈ memory_access.hex_rows fuel data size base_addr i, e.isOut = true := by
  induction fuel generalizing i with
  | zero => intro e he; simp [memory_access.hex_rows] at he
  | succ k ih =>
    intro e he
    unfold memory_access.hex_rows at he
    split_ifs at he
    · rcases List.mem_append.mp he with h | h
      · simp only [memory_access.hex_row, List.mem_append, List.mem_singleton, List.mem_flatMap,
          List.mem_map, memory_access.hex_cell, memory_access.ascii_cell] at h
        rcases h with (((rfl | ⟨j, _, hj⟩) | rfl) | ⟨j, _, rfl⟩) | rfl
        · rfl
        · rcases hj with hj | hj
          · split_ifs at hj <;> simp at hj <;> subst hj <;> rfl
          · split_ifs at hj <;> simp at hj; subst hj; rfl
        · rfl
        · rfl
        · rfl
      · exact ih _ e h
    · simp at he

theorem err_not_mem_print_hex_dump (s : String) (data : List Nat) (size base_addr : Nat) :
    Event.err s ∉ memory_access.print_hex_dump data size base_addr := by
  intro h
  have := isOut_hex_rows _ _ _ _ _ _ h
  simp [Event.isOut] at this

theorem hex_rows_take (fuel : Nat) (data : List Nat) (size base_addr i : Nat) :
    memory_access.hex_rows fuel (data.take size) size base_addr i =
      memory_access.hex_rows fuel data size base_addr i := by
  induction fuel generalizing i with
  | zero => rfl
  | succ k ih =>
    unfold memory_access.hex_rows
    split_ifs with h
    · rw [ih]
      congr 1
      unfold memory_access.hex_row
      congr 2
      · congr 2
        apply List.flatMap_congr
        intro j _
        unfold memory_access.hex_cell
        split_ifs with hj <;> simp [List.getElem?_take_of_lt, hj]
      · apply List.map_congr_left
        intro j hj
        have hlt : i + j < size := by simpa using List.mem_takeWhile_imp hj
        simp [memory_access.ascii_cell, List.getElem?_take_of_lt, hlt]
    · rfl

/-- The dump of `size` bytes only depends on the first `size` bytes of the buffer. -/
theorem print_hex_dump_take (data : List Nat) (size base_addr : Nat) :
    memory_access.print_hex_dump (data.take size) size base_addr =
      memory_access.print_hex_dump data size base_addr :=
  hex_rows_take _ _ _ _ _

theorem read_error_ne_write_error (a b : String) :
    "Error: mach_vm_read() failed with code " ++ a ++ "\n" ≠
      "Error: mach_vm_write() failed with code " ++ b ++ "\n" := by
  intro h
  have h2 := congrArg (fun s => s.data.take 20) h
  simp [String.data_append] at h2

theorem unmapped_ne_write_error (a : String) :
    "The address may be invalid or not mapped\n" ≠
      "Error: mach_vm_write() failed with code " ++ a ++ "\n" := by
  intro h
  have h2 := congrArg (fun s => s.data.head?) h
  simp [String.data_append] at h2

theorem read_error_ne_read_only (b : String) :
    "Error: mach_vm_read() failed with code " ++ b ++ "\n" ≠
      "The address may be read-only or not writable\n" := by
  intro h
  have h2 := congrArg (fun s => s.data.head?) h
  simp [String.data_append] at h2

/-- C7: in `memory_access`, for every requested size (within the 1 MiB limit) and every
returned count below it, a `mach_vm_read` that returns `KERN_SUCCESS` is a success: the
run exits with status 0 (whether or not a write is requested), right after the read it
prints the success line with the returned count, dumps exactly the returned bytes (the
dump is that of `read_count` bytes and depends on the first `read_count` bytes only)
and releases the buffer with length `read_count`, and neither message of the failure
branch of the read is printed. -/
theorem C7_short_read_is_success (env : memory_access.Env)
    (hargc : 4 ≤ env.argv.length)
    (hsize : env.strtoull (argvAt env.argv 3) ≤ 1048576)
    (htfp : env.tfp_kr = KERN_SUCCESS) (hsus : env.suspend_kr = KERN_SUCCESS)
    (hread : env.read_kr = KERN_SUCCESS)
    (_hshort : env.read_count < env.strtoull (argvAt env.argv 3)) :
    (memory_access.main env).status = 0 ∧
    ([Event.out ("    ✓ Read " ++ fmt_u env.read_count ++ " bytes\n"),
      Event.out "\nMemory contents:\n"] ++
      memory_access.print_hex_dump env.read_bytes env.read_count
        (env.strtoull (argvAt env.argv 2)) ++
      [Event.vm_deallocate env.self env.read_data env.read_count]) <+:
        after_mach_vm_read (memory_access.main env).trace ∧
    memory_access.print_hex_dump env.read_bytes env.read_count
        (env.strtoull (argvAt env.argv 2)) =
      memory_access.print_hex_dump (env.read_bytes.take env.read_count) env.read_count
        (env.strtoull (argvAt env.argv 2)) ∧
    (∀ kr : Int, Event.err ("Error: mach_vm_read() failed with code " ++ fmt_d kr ++ "\n") ∉
      (memory_access.main env).trace) ∧
    Event.err "The address may be invalid or not mapped\n" ∉ (memory_access.main env).trace := by
  have h1 : ¬ env.argv.length < 4 := by omega
  have h2 : ¬ env.strtoull (argvAt env.argv 3) > 1024 * 1024 := by omega
  refine ⟨?_, ?_, (print_hex_dump_take _ _ _).symm, ?_, ?_⟩
  · simp [memory_access.main, memory_access.after_read, h1, h2, htfp, hsus, hread, Run.after]
  · simp only [memory_access.main, memory_access.after_read, h1, h2, htfp, hsus, hread,
      if_false, ne_eq, not_true_eq_false, Run.after, List.cons_append, List.nil_append,
      after_mach_vm_read, List.append_assoc, List.prefix_cons_inj, List.prefix_append_right_inj,
      List.nil_prefix]
  · intro kr
    simp only [memory_access.main, memory_access.after_read, memory_access.write_step, h1, h2,
      htfp, hsus, hread, if_false, ne_eq, not_true_eq_false, Run.after]
    split_ifs <;>
      simp [err_not_mem_print_hex_dump, read_error_ne_write_error, read_error_ne_read_only]
  · simp only [memory_access.main, memory_access.after_read, memory_access.write_step, h1, h2,
      htfp, hsus, hread, if_false, ne_eq, not_true_eq_false, Run.after]
    split_ifs <;>
      simp [err_not_mem_print_hex_dump, unmapped_ne_write_error]

theorem C7_short_read_is_success_witness :
    memory_access.short_read_env.read_count <
      memory_access.short_read_env.strtoull (argvAt memory_access.short_read_env.argv 3) ∧
    (memory_access.main memory_access.short_read_env).status = 0 :=
  ⟨by decide,
   (C7_short_read_is_success memory_access.short_read_env (by decide) (by decide) rfl rfl rfl
     (by decide)).1⟩

/-! ### C8: release of the task handle -/

theorem countP_eq_zero_of_class (q p : Event → Bool) (hp : ∀ e, q e = true → p e = false)
    (l : List Event) (hl : ∀ e ∈ l, q e = true) : l.countP p = 0 := by
  rw [List.countP_eq_zero]
  intro e he
  simp [hp e (hl e he)]

theorem deallocOf_rejects_text (p : Nat) :
    ∀ e : Event, e.isText = true → isDeallocOf p e = false := by
  intro e; cases e <;> simp [Event.isText, isDeallocOf]

theorem deallocOf_rejects_thread_step (p : Nat) :
    ∀ e : Event, e.isThreadStep = true → isDeallocOf p e = false := by
  intro e; cases e <;> simp [Event.isThreadStep, isDeallocOf]

theorem portDealloc_rejects_text :
    ∀ e : Event, e.isText = true → isPortDealloc e = false := by
  intro e; cases e <;> simp [Event.isText, isPortDealloc]

theorem countP_deallocOf_threads (self task : Nat) (threads : List Nat) (h : task ∉ threads) :
    (threads.map (fun t => Event.mach_port_deallocate self t)).countP (isDeallocOf task) = 0 := by
  rw [List.countP_eq_zero]
  intro e he
  rw [List.mem_map] at he
  obtain ⟨t, ht, rfl⟩ := he
  have : t ≠ task := fun e => h (e ▸ ht)
  simp [isDeallocOf, this]

theorem last_call_append_of_some (l r : List Event) (x : Event)
    (h : last_call r = some x) : last_call (l ++ r) = some x := by
  unfold last_call at h ⊢
  rw [List.filter_append, List.getLast?_append, h]
  rfl

theorem task_released_simple_attach (env : simple_attach.Env) (hargs : env.args_ok)
    (htfp : env.tfp_kr = KERN_SUCCESS) (hdistinct : env.task ∉ env.threads) :
    (simple_attach.main env).trace.countP (isDeallocOf env.task) = 1 ∧
    last_call (simple_attach.main env).trace =
      some (Event.mach_port_deallocate env.self env.task) := by
  obtain ⟨h1, h2⟩ := hargs
  have h2' : ¬ env.atoi (argvAt env.argv 1) ≤ 0 := by omega
  constructor
  · simp only [simple_attach.main, simple_attach.attached, h1, h2', htfp, ne_eq,
      not_true_eq_false, if_false, Run.after]
    split_ifs <;>
      simp [List.countP_append, List.countP_cons, isDeallocOf,
        countP_deallocOf_threads _ _ _ hdistinct,
        countP_eq_zero_of_class _ _ (deallocOf_rejects_text _) _ (isText_print_kern_error _ _)]
  · simp only [simple_attach.main, simple_attach.attached, h1, h2', htfp, ne_eq,
      not_true_eq_false, if_false, Run.after]
    by_cases hs : env.suspend_kr = KERN_SUCCESS
    · simp only [hs, not_true_eq_false, if_false, List.append_nil, ← List.append_assoc]
      exact last_call_append_of_some _ _ _ rfl
    · simp only [hs, not_false_eq_true, if_true, ← List.append_assoc]
      exact last_call_append_of_some _ _ _ rfl

theorem task_released_memory_access (env : memory_access.Env) (hargs : env.args_ok)
    (htfp : env.tfp_kr = KERN_SUCCESS) :
    (memory_access.main env).trace.countP (isDeallocOf env.task) = 1 ∧
    last_call (memory_access.main env).trace =
      some (Event.mach_port_deallocate env.self env.task) := by
  obtain ⟨h1, h2⟩ := hargs
  have h1' : ¬ env.argv.length < 4 := by omega
  have h2' : ¬ env.strtoull (argvAt env.argv 3) > 1024 * 1024 := by omega
  constructor
  · simp only [memory_access.main, memory_access.after_read, memory_access.write_step, h1', h2',
      htfp, ne_eq, not_true_eq_false, if_false, Run.after]
    split_ifs <;>
      simp [List.countP_append, List.countP_cons, isDeallocOf,
        countP_eq_zero_of_class _ _ (deallocOf_rejects_text _) _ (isText_print_hex_dump _ _ _)]
  · simp only [memory_access.main, memory_access.after_read, h1', h2', htfp, ne_eq,
      not_true_eq_false, if_false, Run.after]
    by_cases hs : env.suspend_kr = KERN_SUCCESS
    · by_cases hr : env.read_kr = KERN_SUCCESS
      · simp only [hs, hr, not_true_eq_false, if_false, ← List.append_assoc]
        exact last_call_append_of_some _ _ _ rfl
      · simp only [hs, hr, not_true_eq_false, not_false_eq_true, if_true, if_false,
          ← List.append_assoc]
        exact last_call_append_of_some _ _ _ rfl
    · simp only [hs, not_false_eq_true, if_true, ← List.append_assoc]
      exact last_call_append_of_some _ _ _ rfl

theorem task_released_register_access (arch : register_access.Arch)
    (env : register_access.Env arch) (hargs : env.args_ok)
    (htfp : env.tfp_kr = KERN_SUCCESS) (hdistinct : env.task ∉ env.threads) :
    (register_access.main arch env).trace.countP (isDeallocOf env.task) = 1 ∧
    last_call (register_access.main arch env).trace =
      some (Event.mach_port_deallocate env.self env.task) := by
  have h1 : env.argv.length = 2 := hargs
  constructor
  · simp only [register_access.main, register_access.with_threads, h1, htfp, ne_eq,
      not_true_eq_false, if_false, Run.after]
    split_ifs <;>
      simp [List.countP_append, List.countP_cons, isDeallocOf,
        countP_deallocOf_threads _ _ _ hdistinct,
        countP_eq_zero_of_class _ _ (deallocOf_rejects_thread_step _) _
          (isThreadStep_thread_loop _ _ _ _)]
  · simp only [register_access.main, register_access.with_threads, h1, htfp, ne_eq,
      not_true_eq_false, if_false, Run.after]
    by_cases hs : env.suspend_kr = KERN_SUCCESS
    · by_cases hr : env.threads_kr = KERN_SUCCESS
      · simp only [hs, hr, not_true_eq_false, if_false, ← List.append_assoc]
        exact last_call_append_of_some _ _ _ rfl
      · simp only [hs, hr, not_true_eq_false, not_false_eq_true, if_true, if_false,
          ← List.append_assoc]
        exact last_call_append_of_some _ _ _ rfl
    · simp only [hs, not_false_eq_true, if_true, ← List.append_assoc]
      exact last_call_append_of_some _ _ _ rfl

theorem no_release_simple_attach (env : simple_attach.Env) (htfp : env.tfp_kr ≠ KERN_SUCCESS) :
    (simple_attach.main env).trace.countP isPortDealloc = 0 := by
  simp only [simple_attach.main, htfp, ne_eq, not_false_eq_true, if_true, Run.after]
  split_ifs <;>
    simp [List.countP_append, List.countP_cons, isPortDealloc,
      countP_eq_zero_of_class _ _ portDealloc_rejects_text _ (isText_print_kern_error _ _)]

theorem no_release_memory_access (env : memory_access.Env) (htfp : env.tfp_kr ≠ KERN_SUCCESS) :
    (memory_access.main env).trace.countP isPortDealloc = 0 := by
  simp only [memory_access.main, htfp, ne_eq, not_false_eq_true, if_true, Run.after]
  split_ifs <;> simp [List.countP_cons, isPortDealloc]

theorem no_release_register_access (arch : register_access.Arch)
    (env : register_access.Env arch) (htfp : env.tfp_kr ≠ KERN_SUCCESS) :
    (register_access.main arch env).trace.countP isPortDealloc = 0 := by
  simp only [register_access.main, htfp, ne_eq, not_false_eq_true, if_true, Run.after]
  split_ifs <;> simp [List.countP_cons, isPortDealloc]

/-- C8: in `simple_attach`, `memory_access` and every build of `register_access`, on
every run in which `task_for_pid` is called and returns `KERN_SUCCESS` (the names of
the thread list being other names than the task's, as they are in one port name
space), `mach_port_deallocate` is called on the task handle exactly once and that call
is the last call of the run, so nothing uses the handle after its release; and when
`task_for_pid` does not return `KERN_SUCCESS` the run makes no `mach_port_deallocate`
at all. -/
theorem C8_task_handle_released_once :
    (∀ env : simple_attach.Env,
      (env.args_ok → env.tfp_kr = KERN_SUCCESS → env.task ∉ env.threads →
        (simple_attach.main env).trace.countP (isDeallocOf env.task) = 1 ∧
        last_call (simple_attach.main env).trace =
          some (Event.mach_port_deallocate env.self env.task)) ∧
      (env.tfp_kr ≠ KERN_SUCCESS →
        (simple_attach.main env).trace.countP isPortDealloc = 0)) ∧
    (∀ env : memory_access.Env,
      (env.args_ok → env.tfp_kr = KERN_SUCCESS →
        (memory_access.main env).trace.countP (isDeallocOf env.task) = 1 ∧
        last_call (memory_access.main env).trace =
          some (Event.mach_port_deallocate env.self env.task)) ∧
      (env.tfp_kr ≠ KERN_SUCCESS →
        (memory_access.main env).trace.countP isPortDealloc = 0)) ∧
    (∀ (arch : register_access.Arch) (env : register_access.Env arch),
      (env.args_ok → env.tfp_kr = KERN_SUCCESS → env.task ∉ env.threads →
        (register_access.main arch env).trace.countP (isDeallocOf env.task) = 1 ∧
        last_call (register_access.main arch env).trace =
          some (Event.mach_port_deallocate env.self env.task)) ∧
      (env.tfp_kr ≠ KERN_SUCCESS →
        (register_access.main arch env).trace.countP isPortDealloc = 0)) :=
  ⟨fun env => ⟨task_released_simple_attach env, no_release_simple_attach env⟩,
   fun env => ⟨task_released_memory_access env, no_release_memory_access env⟩,
   fun arch env => ⟨task_released_register_access arch env,
     no_release_register_access arch env⟩⟩

theorem C8_task_handle_released_once_witness :
    ((simple_attach.main simple_attach.sample_env).trace.countP (isDeallocOf 5123) = 1 ∧
      last_call (simple_attach.main simple_attach.sample_env).trace =
        some (Event.mach_port_deallocate 259 5123)) ∧
    ((memory_access.main memory_access.sample_env).trace.countP (isDeallocOf 5123) = 1 ∧
      last_call (memory_access.main memory_access.sample_env).trace =
        some (Event.mach_port_deallocate 259 5123)) ∧
    ((register_access.main register_access.Arch.x86_64
        register_access.short_count_env).trace.countP (isDeallocOf 5123) = 1 ∧
      last_call (register_access.main register_access.Arch.x86_64
        register_access.short_count_env).trace =
        some (Event.mach_port_deallocate 259 5123)) ∧
    (memory_access.main { memory_access.sample_env with tfp_kr := 5 }).trace.countP
      isPortDealloc = 0 :=
  ⟨(C8_task_handle_released_once.1 simple_attach.sample_env).1
      ⟨rfl, by decide⟩ rfl (by decide),
   (C8_task_handle_released_once.2.1 memory_access.sample_env).1
      ⟨by decide, by decide⟩ rfl,
   (C8_task_handle_released_once.2.2 register_access.Arch.x86_64
      register_access.short_count_env).1 rfl rfl (by decide),
   (C8_task_handle_released_once.2.1 { memory_access.sample_env with tfp_kr := 5 }).2
      (by decide)⟩

/-! ### C9: failures in `mach_exception` -/

/-- C9 as stated fails: in the run `tfp_fails_env` the exception port has been allocated
and the child forked when `task_for_pid` fails, and the program exits without releasing
the port and without killing or reaping the child. -/
theorem C9_no_unwinding_when_task_for_pid_fails :
    mach_exception.tfp_fails_env.alloc_kr = KERN_SUCCESS ∧
    mach_exception.tfp_fails_env.insert_kr = KERN_SUCCESS ∧
    Event.fork 4321 ∈ (mach_exception.main mach_exception.tfp_fails_env).trace ∧
    Event.task_for_pid 259 4321 KERN_FAILURE 0 ∈
      (mach_exception.main mach_exception.tfp_fails_env).trace ∧
    Event.mach_port_deallocate 259 2563 ∉
      (mach_exception.main mach_exception.tfp_fails_env).trace ∧
    Event.kill 4321 mach_exception.SIGKILL ∉
      (mach_exception.main mach_exception.tfp_fails_env).trace ∧
    Event.wait ∉ (mach_exception.main mach_exception.tfp_fails_env).trace ∧
    (mach_exception.main mach_exception.tfp_fails_env).trace.filter isCleanup = [] := by
  refine ⟨by decide, by decide, by decide, by decide, by decide, by decide, by decide,
    by decide⟩

/-- C9 (as the code behaves): in `mach_exception`, once the exception port is allocated,
a failure of `mach_port_insert_right`, of `task_for_pid` (parent process) or of
`task_set_exception_ports` (parent process) makes the program report it with
`mach_error` as its last action and exit with status 1 without any release of its own
(no `mach_port_deallocate`, no `kill`, no `wait`); the program only releases on the
path where every call succeeds: it kills the child, waits for it and deallocates the
exception port. -/
theorem C9_failure_exits_without_release (env : mach_exception.Env)
    (halloc : env.alloc_kr = KERN_SUCCESS) :
    (env.insert_kr ≠ KERN_SUCCESS →
      (mach_exception.main env).status = 1 ∧
      (mach_exception.main env).trace.getLast? =
        some (Event.mach_error "mach_port_insert_right" env.insert_kr) ∧
      (mach_exception.main env).trace.filter isCleanup = []) ∧
    (env.insert_kr = KERN_SUCCESS → env.child_pid ≠ 0 → env.tfp_kr ≠ KERN_SUCCESS →
      (mach_exception.main env).status = 1 ∧
      (mach_exception.main env).trace.getLast? =
        some (Event.mach_error "task_for_pid" env.tfp_kr) ∧
      (mach_exception.main env).trace.filter isCleanup = []) ∧
    (env.insert_kr = KERN_SUCCESS → env.child_pid ≠ 0 → env.tfp_kr = KERN_SUCCESS →
      env.set_kr ≠ KERN_SUCCESS →
      (mach_exception.main env).status = 1 ∧
      (mach_exception.main env).trace.getLast? =
        some (Event.mach_error "task_set_exception_ports" env.set_kr) ∧
      (mach_exception.main env).trace.filter isCleanup = []) ∧
    (env.insert_kr = KERN_SUCCESS → env.child_pid ≠ 0 → env.tfp_kr = KERN_SUCCESS →
      env.set_kr = KERN_SUCCESS →
      (mach_exception.main env).status = 0 ∧
      (mach_exception.main env).trace.filter isCleanup =
        [Event.kill env.child_pid mach_exception.SIGKILL, Event.wait,
         Event.mach_port_deallocate env.self env.exception_port]) := by
  refine ⟨?_, ?_, ?_, ?_⟩
  · intro h1
    simp [mach_exception.main, mach_exception.CHECK_KERN_failed, halloc, h1, Run.after,
      List.filter_cons, isCleanup]
  · intro h1 h2 h3
    simp [mach_exception.main, mach_exception.parent, mach_exception.CHECK_KERN_failed, halloc,
      h1, h2, h3, Run.after, List.filter_cons, isCleanup]
  · intro h1 h2 h3 h4
    simp [mach_exception.main, mach_exception.parent, mach_exception.CHECK_KERN_failed, halloc,
      h1, h2, h3, h4, Run.after, List.filter_cons, isCleanup]
  · intro h1 h2 h3 h4
    simp [mach_exception.main, mach_exception.parent, halloc,
      h1, h2, h3, h4, Run.after, List.filter_cons, isCleanup]

theorem C9_failure_exits_without_release_witness :
    ((mach_exception.main mach_exception.tfp_fails_env).status = 1 ∧
      (mach_exception.main mach_exception.tfp_fails_env).trace.getLast? =
        some (Event.mach_error "task_for_pid" 5) ∧
      (mach_exception.main mach_exception.tfp_fails_env).trace.filter isCleanup = []) ∧
    ((mach_exception.main mach_exception.success_env).status = 0 ∧
      (mach_exception.main mach_exception.success_env).trace.filter isCleanup =
        [Event.kill 4321 mach_exception.SIGKILL, Event.wait,
         Event.mach_port_deallocate 259 2563]) :=
  ⟨(C9_failure_exits_without_release mach_exception.tfp_fails_env rfl).2.1 rfl (by decide)
    (by decide),
   (C9_failure_exits_without_release mach_exception.success_env rfl).2.2.2 rfl (by decide)
    rfl rfl⟩

/-! ### C10: when `task_set_exception_ports` is called -/

/-- C10: in `mach_exception`, for every outcome of the calls, `task_set_exception_ports`
is called at most once; and on a run that calls it the process is the parent, the call
is made on the task handle stored by `task_for_pid` with mask `EXC_MASK_ALL`, the
allocated port and behavior `EXCEPTION_DEFAULT | MACH_EXCEPTION_CODES`, and the calls of
the registration sequence made by the run are, in order: `mach_port_allocate` returning
`KERN_SUCCESS`, `mach_port_insert_right` (`MAKE_SEND` on the allocated port) returning
`KERN_SUCCESS`, `task_for_pid` for the child returning `KERN_SUCCESS`, and then this
call. -/
theorem C10_exception_ports_set_after_setup (env : mach_exception.Env) :
    (mach_exception.main env).trace.countP isSetExceptionPorts ≤ 1 ∧
    ∀ e ∈ (mach_exception.main env).trace, isSetExceptionPorts e = true →
      env.child_pid ≠ 0 ∧
      e = Event.task_set_exception_ports env.child_task env.EXC_MASK_ALL env.exception_port
            (mach_exception.EXCEPTION_DEFAULT ||| mach_exception.MACH_EXCEPTION_CODES)
            env.THREAD_STATE_NONE env.set_kr ∧
      (mach_exception.main env).trace.filter isRegistrationCall =
        [Event.mach_port_allocate env.self mach_exception.MACH_PORT_RIGHT_RECEIVE KERN_SUCCESS
           env.exception_port,
         Event.mach_port_insert_right env.self env.exception_port env.exception_port
           mach_exception.MACH_MSG_TYPE_MAKE_SEND KERN_SUCCESS,
         Event.task_for_pid env.self env.child_pid KERN_SUCCESS env.child_task,
         Event.task_set_exception_ports env.child_task env.EXC_MASK_ALL env.exception_port
           (mach_exception.EXCEPTION_DEFAULT ||| mach_exception.MACH_EXCEPTION_CODES)
           env.THREAD_STATE_NONE env.set_kr] := by
  constructor
  · simp only [mach_exception.main, mach_exception.parent, mach_exception.child,
      mach_exception.CHECK_KERN_failed, Run.after]
    split_ifs <;> simp [List.countP_cons, isSetExceptionPorts]
  · intro e he hset
    have hmem : e ∈ (mach_exception.main env).trace.filter isSetExceptionPorts :=
      List.mem_filter.mpr ⟨he, hset⟩
    clear he hset
    simp only [mach_exception.main, mach_exception.parent, mach_exception.child,
      mach_exception.CHECK_KERN_failed, Run.after] at hmem ⊢
    split_ifs at hmem ⊢ <;>
      simp [List.filter_cons, isSetExceptionPorts] at hmem <;>
      simp_all [List.filter_cons, isRegistrationCall]

theorem C10_exception_ports_set_after_setup_witness :
    Event.task_set_exception_ports 5123 0x1BFE 2563 0x80000001 13 0 ∈
      (mach_exception.main mach_exception.success_env).trace ∧
    (mach_exception.main mach_exception.success_env).trace.filter isRegistrationCall =
      [Event.mach_port_allocate 259 1 0 2563,
       Event.mach_port_insert_right 259 2563 2563 20 0,
       Event.task_for_pid 259 4321 0 5123,
       Event.task_set_exception_ports 5123 0x1BFE 2563 0x80000001 13 0] :=
  ⟨by decide,
   ((C10_exception_ports_set_after_setup mach_exception.success_env).2
     (Event.task_set_exception_ports 5123 0x1BFE 2563 0x80000001 13 0) (by decide) rfl).2.2⟩

/-! ### The loop of `print_hex_dump` runs to completion -/

/-- Once the bound on the iterations covers the bytes left, a larger bound gives the
same rows: the loop of `print_hex_dump` ends by its own test `i < size`. -/
theorem hex_rows_enough (fuel extra : Nat) (data : List Nat) (size base_addr i : Nat)
    (h : size ≤ i + 16 * fuel) :
    memory_access.hex_rows (fuel + extra) data size base_addr i =
      memory_access.hex_rows fuel data size base_addr i := by
  induction fuel generalizing i with
  | zero =>
    have hi : ¬ i < size := by omega
    cases extra with
    | zero => rfl
    | succ k => simp [memory_access.hex_rows, hi]
  | succ n ih =>
    have e : n + 1 + extra = (n + extra) + 1 := by omega
    rw [e]
    unfold memory_access.hex_rows
    split_ifs with hi
    · rw [ih (i + 16) (by omega)]
    · rfl

/-- The rows of `print_hex_dump` are those of the loop under any bound of at least
`size` iterations. -/
theorem print_hex_dump_eq_hex_rows (extra : Nat) (data : List Nat) (size base_addr : Nat) :
    memory_access.print_hex_dump data size base_addr =
      memory_access.hex_rows (size + extra) data size base_addr 0 :=
  (hex_rows_enough size extra data size base_addr 0 (by omega)).symm

/-! ### C11: order of the teardown -/

theorem teardown_rejects_text : ∀ e : Event, e.isText = true → isTeardown e = false := by
  intro e; cases e <;> simp [Event.isText, isTeardown]

theorem teardown_rejects_thread_step :
    ∀ e : Event, e.isThreadStep = true → isTeardown e = false := by
  intro e; cases e <;> simp [Event.isThreadStep, isTeardown]

theorem teardown_simple_attach (env : simple_attach.Env) (hs : env.suspended)
    (hk : env.threads_kr = KERN_SUCCESS) :
    (simple_attach.main env).trace.filter isTeardown =
      env.threads.map (fun t => Event.mach_port_deallocate env.self t) ++
      [Event.task_resume env.task env.resume_kr,
       Event.mach_port_deallocate env.self env.task] := by
  obtain ⟨h1, h2, h3, h4⟩ := hs
  have h2' : ¬ env.atoi (argvAt env.argv 1) ≤ 0 := by omega
  simp only [simple_attach.main, simple_attach.attached, h1, h2', h3, h4, hk, ne_eq,
    not_true_eq_false, if_false, if_true, Run.after]
  split_ifs <;>
    simp [List.filter_append, List.filter_cons, isTeardown, List.filter_map,
      Function.comp_def,
      filter_eq_nil_of_class _ _ teardown_rejects_text _ (isText_print_kern_error _ _)]

theorem teardown_register_access (arch : register_access.Arch)
    (env : register_access.Env arch) (hs : env.suspended)
    (hk : env.threads_kr = KERN_SUCCESS) :
    (register_access.main arch env).trace.filter isTeardown =
      env.threads.map (fun t => Event.mach_port_deallocate env.self t) ++
      [Event.task_resume env.task env.resume_kr,
       Event.mach_port_deallocate env.self env.task] := by
  obtain ⟨h1, h2, h3⟩ := hs
  simp only [register_access.main, register_access.with_threads, h1, h2, h3, hk, ne_eq,
    not_true_eq_false, if_false, Run.after]
  simp [List.filter_append, List.filter_cons, isTeardown, List.filter_map,
    Function.comp_def,
    filter_eq_nil_of_class _ _ teardown_rejects_thread_step _ (isThreadStep_thread_loop _ _ _ _)]

/-- C11 (as the code behaves): in `simple_attach` and in every build of
`register_access`, on the path where `task_for_pid`, `task_suspend` and `task_threads`
all succeed, the teardown calls of the run are, in order: the release of every thread
handle of the list, then `task_resume`, then the release of the task handle; so the task
handle is released after all thread handles, and the thread handles are released while
the task is still suspended. -/
theorem C11_teardown_threads_then_resume_then_task :
    (∀ env : simple_attach.Env, env.suspended → env.threads_kr = KERN_SUCCESS →
      (simple_attach.main env).trace.filter isTeardown =
        env.threads.map (fun t => Event.mach_port_deallocate env.self t) ++
        [Event.task_resume env.task env.resume_kr,
         Event.mach_port_deallocate env.self env.task]) ∧
    (∀ (arch : register_access.Arch) (env : register_access.Env arch),
      env.suspended → env.threads_kr = KERN_SUCCESS →
      (register_access.main arch env).trace.filter isTeardown =
        env.threads.map (fun t => Event.mach_port_deallocate env.self t) ++
        [Event.task_resume env.task env.resume_kr,
         Event.mach_port_deallocate env.self env.task]) :=
  ⟨teardown_simple_attach, teardown_register_access⟩

/-- C11 as stated fails: in the run `sample_env` of `simple_attach` (threads 7 and 9) and
in the run `short_count_env` of `register_access` (thread 7) all three calls succeed,
and the thread handles are released before `task_resume` is called, not after it. -/
theorem C11_thread_handles_released_before_resume :
    (simple_attach.main simple_attach.sample_env).trace.filter isTeardown =
      [Event.mach_port_deallocate 259 7, Event.mach_port_deallocate 259 9,
       Event.task_resume 5123 0, Event.mach_port_deallocate 259 5123] ∧
    (simple_attach.main simple_attach.sample_env).trace.filter isTeardown ≠
      [Event.task_resume 5123 0, Event.mach_port_deallocate 259 7,
       Event.mach_port_deallocate 259 9, Event.mach_port_deallocate 259 5123] ∧
    (register_access.main register_access.Arch.x86_64
        register_access.short_count_env).trace.filter isTeardown =
      [Event.mach_port_deallocate 259 7, Event.task_resume 5123 0,
       Event.mach_port_deallocate 259 5123] ∧
    (register_access.main register_access.Arch.x86_64
        register_access.short_count_env).trace.filter isTeardown ≠
      [Event.task_resume 5123 0, Event.mach_port_deallocate 259 7,
       Event.mach_port_deallocate 259 5123] := by
  refine ⟨by decide, by decide, by decide, by decide⟩

theorem C11_teardown_threads_then_resume_then_task_witness :
    (simple_attach.main simple_attach.sample_env).trace.filter isTeardown =
      [Event.mach_port_deallocate 259 7, Event.mach_port_deallocate 259 9,
       Event.task_resume 5123 0, Event.mach_port_deallocate 259 5123] ∧
    (register_access.main register_access.Arch.x86_64
        register_access.short_count_env).trace.filter isTeardown =
      [Event.mach_port_deallocate 259 7, Event.task_resume 5123 0,
       Event.mach_port_deallocate 259 5123] :=
  ⟨C11_teardown_threads_then_resume_then_task.1 simple_attach.sample_env
      ⟨rfl, by decide, rfl, rfl⟩ rfl,
   C11_teardown_threads_then_resume_then_task.2 register_access.Arch.x86_64
      register_access.short_count_env ⟨rfl, rfl, rfl⟩ rfl⟩

/-! ### Decimal and hexadecimal numerals -/

theorem toDigitsCore_append (b fuel n : Nat) (ds : List Char) :
    Nat.toDigitsCore b fuel n ds = Nat.toDigitsCore b fuel n [] ++ ds := by
  induction fuel generalizing n ds with
  | zero => simp [Nat.toDigitsCore]
  | succ f ih =>
    simp only [Nat.toDigitsCore]
    split_ifs
    · simp
    · rw [ih (n / b) (Nat.digitChar (n % b) :: ds), ih (n / b) [Nat.digitChar (n % b)]]
      simp

theorem toDigitsCore_fuel (b : Nat) (hb : 2 ≤ b) (f1 f2 n : Nat) (ds : List Char)
    (h1 : n < f1) (h2 : n < f2) :
    Nat.toDigitsCore b f1 n ds = Nat.toDigitsCore b f2 n ds := by
  induction f1 generalizing f2 n ds with
  | zero => omega
  | succ f ih =>
    cases f2 with
    | zero => omega
    | succ g =>
      simp only [Nat.toDigitsCore]
      split_ifs with h0
      · rfl
      · have hlt : n / b < n := Nat.div_lt_self (by
          rcases Nat.eq_zero_or_pos n with h | h
          · subst h; simp at h0
          · exact h) (by omega)
        exact ih g (n / b) _ (by omega) (by omega)

/-- The numeral of `n` in base `b`: the numeral of `n / b`, unless that is zero, followed
by the digit `n % b`. -/
theorem toDigits_step (b : Nat) (hb : 2 ≤ b) (n : Nat) :
    Nat.toDigits b n =
      (if n / b = 0 then [] else Nat.toDigits b (n / b)) ++ [Nat.digitChar (n % b)] := by
  have hstep : Nat.toDigits b n =
      if n / b = 0 then [Nat.digitChar (n % b)]
      else Nat.toDigitsCore b n (n / b) [Nat.digitChar (n % b)] := rfl
  rw [hstep]
  split_ifs with h0
  · simp
  · rw [toDigitsCore_append]
    congr 1
    have hlt : n / b < n := Nat.div_lt_self (by
      rcases Nat.eq_zero_or_pos n with h | h
      · subst h; simp at h0
      · exact h) (by omega)
    exact toDigitsCore_fuel b hb n (n / b + 1) (n / b) [] hlt (by omega)

theorem toDigits_ne_nil (b : Nat) (hb : 2 ≤ b) (n : Nat) : Nat.toDigits b n ≠ [] := by
  rw [toDigits_step b hb n]
  simp

theorem digitChar_inj_of_lt (a b : Nat) (ha : a < 16) (hb : b < 16)
    (h : Nat.digitChar a = Nat.digitChar b) : a = b := by
  revert h
  interval_cases a <;> interval_cases b <;> decide

theorem toDigits_ten_injective (a b : Nat) (h : Nat.toDigits 10 a = Nat.toDigits 10 b) :
    a = b := by
  induction a using Nat.strong_induction_on generalizing b with
  | _ a ih =>
    rw [toDigits_step 10 (by decide) a, toDigits_step 10 (by decide) b] at h
    have hlast := List.append_inj' h rfl
    obtain ⟨hinit, hd⟩ := hlast
    have hmod : a % 10 = b % 10 :=
      digitChar_inj_of_lt _ _ (by omega) (by omega) (by simpa using hd)
    by_cases ha : a / 10 = 0 <;> by_cases hb : b / 10 = 0
    · omega
    · simp only [ha, hb, if_true, if_false] at hinit
      exact absurd hinit.symm (toDigits_ne_nil 10 (by decide) _)
    · simp only [ha, hb, if_true, if_false] at hinit
      exact absurd hinit (toDigits_ne_nil 10 (by decide) _)
    · simp only [ha, hb, if_false] at hinit
      have := ih (a / 10) (by omega) (b / 10) hinit
      omega

theorem toDigits_ten_no_minus (n : Nat) : ∀ c ∈ Nat.toDigits 10 n, c ≠ '-' := by
  induction n using Nat.strong_induction_on with
  | _ n ih =>
    intro c hc
    rw [toDigits_step 10 (by decide) n] at hc
    rcases List.mem_append.mp hc with h | h
    · split_ifs at h with h0
      · simp at h
      · exact ih (n / 10) (by omega) c h
    · simp only [List.mem_singleton] at h
      subst h
      have hlt : n % 10 < 10 := Nat.mod_lt _ (by decide)
      revert hlt
      generalize n % 10 = d
      intro hlt
      interval_cases d <;> decide

theorem fmt_d_ofNat (m : Nat) : fmt_d (Int.ofNat m) = String.mk (Nat.toDigits 10 m) := rfl

theorem fmt_d_negSucc (m : Nat) :
    fmt_d (Int.negSucc m) = "-" ++ String.mk (Nat.toDigits 10 (m + 1)) := rfl

/-- The conversion `%d` is injective: the number can be recovered from its numeral. -/
theorem fmt_d_injective (a b : Int) (h : fmt_d a = fmt_d b) : a = b := by
  cases a with
  | ofNat m =>
    cases b with
    | ofNat k =>
      rw [fmt_d_ofNat, fmt_d_ofNat] at h
      have := toDigits_ten_injective m k (congrArg String.data h)
      rw [this]
    | negSucc k =>
      rw [fmt_d_ofNat, fmt_d_negSucc] at h
      have hd := congrArg String.data h
      simp only [String.data_append] at hd
      have hmem : '-' ∈ Nat.toDigits 10 m := by
        rw [hd]; simp
      exact absurd rfl (toDigits_ten_no_minus m _ hmem)
  | negSucc m =>
    cases b with
    | ofNat k =>
      rw [fmt_d_ofNat, fmt_d_negSucc] at h
      have hd := congrArg String.data h
      simp only [String.data_append] at hd
      have hmem : '-' ∈ Nat.toDigits 10 k := by
        rw [← hd]; simp
      exact absurd rfl (toDigits_ten_no_minus k _ hmem)
    | negSucc k =>
      rw [fmt_d_negSucc, fmt_d_negSucc] at h
      have hd := congrArg String.data h
      simp only [String.data_append, List.append_cancel_left_eq] at hd
      have := toDigits_ten_injective (m + 1) (k + 1) hd
      have hmk : m = k := by omega
      rw [hmk]

/-! ### C12: the message of `print_kern_error` -/

theorem print_kern_error_eq (msg : String) (kr : Int) :
    simple_attach.print_kern_error msg kr =
      [Event.err ("Error: " ++ msg ++ ": "), Event.err (kern_label kr ++ "\n")] := by
  unfold simple_attach.print_kern_error kern_label
  by_cases h1 : kr = KERN_SUCCESS
  · subst h1; simp [KERN_SUCCESS, KERN_FAILURE]
  · by_cases h2 : kr = KERN_FAILURE
    · subst h2; simp [KERN_SUCCESS, KERN_FAILURE]
    · by_cases h3 : kr = KERN_INVALID_ARGUMENT
      · subst h3; simp [KERN_SUCCESS, KERN_FAILURE, KERN_INVALID_ARGUMENT]
      · simp [h1, h2, h3]

theorem decimal_label_ne_name (a : String) (name : String)
    (hname : name.data.head? ≠ some 'k') : "kern_return_t = " ++ a ≠ name := by
  intro h
  apply hname
  rw [← h]
  simp [String.data_append]

theorem kern_label_injective (a b : Int) (h : kern_label a = kern_label b) : a = b := by
  unfold kern_label at h
  split_ifs at h with h1 h2 h3 h4 h5 h6 h7 h8 h9 h10 h11 h12 <;>
    first
    | (exact absurd h (by decide))
    | (subst_vars; rfl)
    | (exact absurd h (decimal_label_ne_name _ _ (by decide)))
    | (exact absurd h.symm (decimal_label_ne_name _ _ (by decide)))
    | (apply fmt_d_injective
       have hd := congrArg String.data h
       simp only [String.data_append, List.append_cancel_left_eq] at hd
       exact String.ext hd)

theorem stderr_chars_print_kern_error (msg : String) (kr : Int) :
    stderr_chars (simple_attach.print_kern_error msg kr) =
      ("Error: " ++ msg ++ ": ").data ++ (kern_label kr).data ++ "\n".data := by
  rw [print_kern_error_eq]
  simp [stderr_chars, String.data_append]

/-- C12: `print_kern_error (msg, kr)` writes to the standard error `Error: <msg>: `
followed by a label that depends on `kr` only and a newline.  The label is
`KERN_FAILURE (likely permission denied)` for `KERN_FAILURE` and for no other code,
`KERN_SUCCESS` and `KERN_INVALID_ARGUMENT` have their own names, every other code is
shown as `kern_return_t = ` and the code in decimal; for a fixed `msg` the text written
is an injective function of `kr`, so the code can be recovered from the message. -/
theorem C12_kern_error_message_determines_code :
    (∀ (msg : String) (kr : Int),
      simple_attach.print_kern_error msg kr =
        [Event.err ("Error: " ++ msg ++ ": "), Event.err (kern_label kr ++ "\n")]) ∧
    (∀ (msg : String) (kr : Int),
      stderr_chars (simple_attach.print_kern_error msg kr) =
        ("Error: " ++ msg ++ ": ").data ++ (kern_label kr).data ++ "\n".data) ∧
    (∀ kr : Int, kern_label kr = "KERN_FAILURE (likely permission denied)" ↔
      kr = KERN_FAILURE) ∧
    kern_label KERN_SUCCESS = "KERN_SUCCESS" ∧
    kern_label KERN_INVALID_ARGUMENT = "KERN_INVALID_ARGUMENT" ∧
    (∀ kr : Int, kr ≠ KERN_SUCCESS → kr ≠ KERN_FAILURE → kr ≠ KERN_INVALID_ARGUMENT →
      kern_label kr = "kern_return_t = " ++ fmt_d kr) ∧
    (∀ (msg : String) (kr kr' : Int),
      stderr_chars (simple_attach.print_kern_error msg kr) =
        stderr_chars (simple_attach.print_kern_error msg kr') → kr = kr') := by
  refine ⟨print_kern_error_eq, stderr_chars_print_kern_error, ?_, by decide, by decide, ?_, ?_⟩
  · intro kr
    constructor
    · intro h
      have h5 : kern_label KERN_FAILURE = "KERN_FAILURE (likely permission denied)" := by
        decide
      exact kern_label_injective kr KERN_FAILURE (h.trans h5.symm)
    · intro h
      subst h
      decide
  · intro kr h1 h2 h3
    simp [kern_label, h1, h2, h3]
  · intro msg kr kr' h
    rw [stderr_chars_print_kern_error, stderr_chars_print_kern_error] at h
    simp only [List.append_assoc, List.append_cancel_left_eq, List.append_cancel_right_eq] at h
    exact kern_label_injective kr kr' (String.ext h)

theorem C12_kern_error_message_determines_code_witness :
    kern_label 7 = "kern_return_t = " ++ fmt_d 7 ∧
    stderr_chars (simple_attach.print_kern_error "task_for_pid() failed" 5) =
      "Error: task_for_pid() failed: KERN_FAILURE (likely permission denied)\n".data :=
  ⟨C12_kern_error_message_determines_code.2.2.2.2.2.1 7 (by decide) (by decide) (by decide),
   (C12_kern_error_message_determines_code.2.1 "task_for_pid() failed" 5).trans (by decide)⟩

/-! ### C13: the text of `print_hex_dump` -/

theorem hex_digits_zero (w : Nat) : hex_digits w 0 = List.replicate w '0' := by
  induction w with
  | zero => rfl
  | succ w ih =>
    simp only [hex_digits, Nat.zero_div, ih, Nat.zero_mod]
    rw [List.replicate_succ']
    rfl

theorem length_hex_digits (w n : Nat) : (hex_digits w n).length = w := by
  induction w generalizing n with
  | zero => rfl
  | succ w ih => simp [hex_digits, ih]

/-- The conversion `%0<w>x` of a number below `16 ^ w` is its `w`-digit numeral. -/
theorem fmt_0x_eq_hex_digits (w n : Nat) (hw : 0 < w) (hn : n < 16 ^ w) :
    (fmt_0x w n).data = hex_digits w n := by
  show List.replicate (w - (Nat.toDigits 16 n).length) (Char.ofNat 48) ++ Nat.toDigits 16 n =
    hex_digits w n
  induction w generalizing n with
  | zero => omega
  | succ w ih =>
    rw [toDigits_step 16 (by decide) n]
    by_cases h0 : n / 16 = 0
    · simp only [h0, if_true, List.nil_append, List.length_singleton, hex_digits,
        hex_digits_zero, Nat.add_sub_cancel]
    · have hw' : 0 < w := by
        rcases Nat.eq_zero_or_pos w with h | h
        · subst h
          simp at hn
          omega
        · exact h
      have hn' : n / 16 < 16 ^ w := by
        rw [Nat.div_lt_iff_lt_mul (by decide)]
        rw [Nat.pow_succ] at hn
        exact hn
      have := ih (n / 16) hw' hn'
      simp only [h0, if_false, List.length_append, List.length_singleton, hex_digits]
      rw [← this, Nat.add_sub_add_right, List.append_assoc]

theorem stdout_chars_append (a b : List Event) :
    stdout_chars (a ++ b) = stdout_chars a ++ stdout_chars b := by
  induction a with
  | nil => rfl
  | cons e a ih => cases e <;> simp [stdout_chars, ih]

theorem stdout_chars_flatMap {α : Type} (l : List α) (f : α → List Event) :
    stdout_chars (l.flatMap f) = l.flatMap (fun x => stdout_chars (f x)) := by
  induction l with
  | nil => rfl
  | cons x l ih => simp [List.flatMap_cons, stdout_chars_append, ih]

theorem stdout_chars_map_singleton {α : Type} (l : List α) (f : α → Char) :
    stdout_chars (l.map (fun x => Event.out (String.singleton (f x)))) = l.map f := by
  induction l with
  | nil => rfl
  | cons x l ih =>
    simp only [List.map_cons, stdout_chars, ih]
    rfl

theorem takeWhile_range' (s n m : Nat) :
    (List.range' s n).takeWhile (fun j => decide (j < m)) = List.range' s (min n (m - s)) := by
  induction n generalizing s with
  | zero => simp
  | succ n ih =>
    rw [List.range'_succ, List.takeWhile_cons]
    by_cases h : s < m
    · simp only [h, decide_True, if_true, ih]
      have e : min (n + 1) (m - s) = min n (m - (s + 1)) + 1 := by omega
      rw [e, List.range'_succ]
    · simp only [h, decide_False]
      have e : min (n + 1) (m - s) = 0 := by omega
      rw [e]
      rfl

theorem takeWhile_ascii (i size : Nat) :
    (List.range 16).takeWhile (fun j => decide (i + j < size)) =
      List.range (min 16 (size - i)) := by
  have hp : (fun j => decide (i + j < size)) = (fun j => decide (j < size - i)) := by
    funext j
    by_cases h : i + j < size
    · have : j < size - i := by omega
      simp [h, this]
    · have : ¬ j < size - i := by omega
      simp [h, this]
  rw [hp, List.range_eq_range', takeWhile_range', List.range_eq_range']
  simp

theorem getD_lt_256 (data : List Nat) (hbytes : ∀ b ∈ data, b < 256) (idx : Nat) :
    data.getD idx 0 < 256 := by
  rw [List.getD_eq_getElem?_getD]
  rcases h : data[idx]? with _ | b
  · simp
  · simp only [Option.getD_some]
    obtain ⟨hlt, hb⟩ := List.getElem?_eq_some.mp h
    exact hbytes b (hb ▸ List.getElem_mem hlt)

theorem stdout_chars_hex_cell (data : List Nat) (hbytes : ∀ b ∈ data, b < 256)
    (size i j : Nat) :
    stdout_chars (memory_access.hex_cell data size i j) =
      (if i + j < size then hex_digits 2 (data.getD (i + j) 0) ++ " ".data else "   ".data) ++
      (if j = 7 then " ".data else []) := by
  have hb := fmt_0x_eq_hex_digits 2 (data.getD (i + j) 0) (by decide)
    (Nat.lt_of_lt_of_le (getD_lt_256 data hbytes (i + j)) (by norm_num))
  unfold memory_access.hex_cell
  generalize data.getD (i + j) 0 = b at hb ⊢
  split_ifs <;> simp [stdout_chars, stdout_chars_append, String.data_append, hb]

theorem ascii_cell_eq (data : List Nat) (i j : Nat) :
    memory_access.ascii_cell data i j =
      Event.out (String.singleton (memory_access.described_ascii (data.getD (i + j) 0))) := by
  unfold memory_access.ascii_cell memory_access.described_ascii memory_access.isprint
  generalize data.getD (i + j) 0 = b
  by_cases h : 0x20 ≤ b ∧ b ≤ 0x7E
  · simp [h]
  · have hf : (decide (0x20 ≤ b) && decide (b ≤ 0x7E)) = false := by
      simpa using h
    simp only [hf, h, if_false]
    rfl

theorem stdout_chars_out_singleton (s : String) : stdout_chars [Event.out s] = s.data := by
  simp [stdout_chars]

/-- The text of one iteration of the outer loop is the described row. -/
theorem stdout_chars_hex_row (data : List Nat) (hbytes : ∀ b ∈ data, b < 256)
    (size base_addr k : Nat) :
    stdout_chars (memory_access.hex_row data size base_addr (16 * k)) =
      memory_access.described_row data size base_addr k := by
  have haddr := fmt_0x_eq_hex_digits 16 ((base_addr + 16 * k) % 2 ^ 64) (by decide)
    (by have := Nat.mod_lt (base_addr + 16 * k) (show 0 < 2 ^ 64 by norm_num); norm_num at this ⊢; omega)
  have hcells : (fun j => stdout_chars (memory_access.hex_cell data size (16 * k) j)) =
      (fun j =>
        (if 16 * k + j < size then hex_digits 2 (data.getD (16 * k + j) 0) ++ " ".data
         else "   ".data) ++
        (if j = 7 then " ".data else [])) := by
    funext j
    exact stdout_chars_hex_cell data hbytes size (16 * k) j
  have hascii : memory_access.ascii_cell data (16 * k) =
      (fun j => Event.out (String.singleton
        (memory_access.described_ascii (data.getD (16 * k + j) 0)))) := by
    funext j
    exact ascii_cell_eq data (16 * k) j
  unfold memory_access.hex_row memory_access.described_row memory_access.row_indices
  rw [takeWhile_ascii, hascii, List.map_map]
  simp only [stdout_chars_append, stdout_chars_flatMap, hcells, stdout_chars_map_singleton,
    stdout_chars_out_singleton, String.data_append, haddr, List.append_assoc, Function.comp_def]

/-- The text of the loop started at row `k` is the described rows from `k` on. -/
theorem stdout_chars_hex_rows (data : List Nat) (hbytes : ∀ b ∈ data, b < 256)
    (size base_addr fuel k : Nat) (h : size ≤ 16 * (k + fuel)) :
    stdout_chars (memory_access.hex_rows fuel data size base_addr (16 * k)) =
      (List.range' k ((size + 15) / 16 - k)).flatMap
        (memory_access.described_row data size base_addr) := by
  induction fuel generalizing k with
  | zero =>
    have e : (size + 15) / 16 - k = 0 := by omega
    rw [e]
    rfl
  | succ fuel ih =>
    unfold memory_access.hex_rows
    split_ifs with hlt
    · have e16 : 16 * k + 16 = 16 * (k + 1) := by omega
      have e : (size + 15) / 16 - k = ((size + 15) / 16 - (k + 1)) + 1 := by omega
      rw [e16, stdout_chars_append, stdout_chars_hex_row data hbytes, ih (k + 1) (by omega), e,
        List.range'_succ, List.flatMap_cons]
    · have e : (size + 15) / 16 - k = 0 := by omega
      rw [e]
      rfl

/-- The text of the dump is the described dump. -/
theorem stdout_chars_print_hex_dump (data : List Nat) (hbytes : ∀ b ∈ data, b < 256)
    (size base_addr : Nat) :
    stdout_chars (memory_access.print_hex_dump data size base_addr) =
      memory_access.described_dump data size base_addr := by
  have h := stdout_chars_hex_rows data hbytes size base_addr size 0 (by omega)
  rw [Nat.mul_zero, Nat.sub_zero] at h
  rw [memory_access.print_hex_dump, h, memory_access.described_dump, List.range_eq_range']

theorem row_indices_upto (size rows : Nat) :
    (List.range rows).flatMap (memory_access.row_indices size) =
      List.range (min size (16 * rows)) := by
  induction rows with
  | zero => simp
  | succ r ih =>
    rw [List.range_succ, List.flatMap_append, ih]
    simp only [List.flatMap_cons, List.flatMap_nil, List.append_nil,
      memory_access.row_indices]
    by_cases h : size ≤ 16 * r
    · have e1 : min 16 (size - 16 * r) = 0 := by omega
      have e2 : min size (16 * (r + 1)) = min size (16 * r) := by omega
      rw [e1, e2]
      simp
    · have e1 : min size (16 * r) = 16 * r := by omega
      have e2 : min size (16 * (r + 1)) = 16 * r + min 16 (size - 16 * r) := by omega
      rw [e1, e2, List.range_add]

/-- The bytes shown by the rows are those at the indices `0` to `size - 1`, each once
and in order. -/
theorem row_indices_cover (size : Nat) :
    (List.range ((size + 15) / 16)).flatMap (memory_access.row_indices size) =
      List.range size := by
  rw [row_indices_upto]
  congr 1
  omega

theorem map_getD_range (data : List Nat) (size : Nat) (hlen : size ≤ data.length) :
    (List.range size).map (fun idx => data.getD idx 0) = data.take size := by
  apply List.ext_getElem
  · simp [hlen]
  · intro i h1 h2
    simp at h1 h2
    simp [List.getElem_take, List.getElem?_eq_getElem (by omega : i < data.length)]

theorem takeWhile_congr_mem {α : Type} (p q : α → Bool) (l : List α)
    (h : ∀ x ∈ l, p x = q x) : l.takeWhile p = l.takeWhile q := by
  induction l with
  | nil => rfl
  | cons x l ih =>
    rw [List.takeWhile_cons, List.takeWhile_cons, h x (List.mem_cons_self _ _),
      ih (fun y hy => h y (List.mem_cons_of_mem _ hy))]

theorem hex_row_u64_eq (data : List Nat) (size base_addr i : Nat)
    (hi : i + 16 ≤ 2 ^ 64) :
    memory_access.hex_row_u64 data size base_addr i =
      memory_access.hex_row data size base_addr i := by
  have hmod : ∀ j ∈ List.range 16, (i + j) % 2 ^ 64 = i + j := by
    intro j hj
    have hj' : j < 16 := List.mem_range.mp hj
    exact Nat.mod_eq_of_lt (by omega)
  have hcells : (List.range 16).flatMap (memory_access.hex_cell_u64 data size i) =
      (List.range 16).flatMap (memory_access.hex_cell data size i) := by
    apply List.flatMap_congr
    intro j hj
    simp only [memory_access.hex_cell_u64, memory_access.hex_cell, hmod j hj]
  have htake : (List.range 16).takeWhile (fun j => decide ((i + j) % 2 ^ 64 < size)) =
      (List.range 16).takeWhile (fun j => decide (i + j < size)) := by
    apply takeWhile_congr_mem
    intro j hj
    simp only [hmod j hj]
  have hascii : ((List.range 16).takeWhile (fun j => decide (i + j < size))).map
        (fun j => memory_access.ascii_cell data 0 ((i + j) % 2 ^ 64)) =
      ((List.range 16).takeWhile (fun j => decide (i + j < size))).map
        (memory_access.ascii_cell data i) := by
    apply List.map_congr_left
    intro j hj
    have hj' : j ∈ List.range 16 := (List.takeWhile_sublist _).subset hj
    simp only [memory_access.ascii_cell, hmod j hj', Nat.zero_add]
  unfold memory_access.hex_row_u64 memory_access.hex_row
  rw [hcells, htake, hascii]

/-- For a size that leaves room for the last increment (`size + 16 <= 2 ^ 64`, which
every buffer of a 64-bit address space satisfies) the loop computed with the wrapping
arithmetic of `size_t` is the loop of the model. -/
theorem hex_rows_u64_eq (data : List Nat) (size base_addr : Nat)
    (hsize : size + 16 ≤ 2 ^ 64) (fuel i : Nat) :
    memory_access.hex_rows_u64 fuel data size base_addr i =
      memory_access.hex_rows fuel data size base_addr i := by
  induction fuel generalizing i with
  | zero => rfl
  | succ fuel ih =>
    unfold memory_access.hex_rows_u64 memory_access.hex_rows
    split_ifs with hlt
    · have hi : (i + 16) % 2 ^ 64 = i + 16 := Nat.mod_eq_of_lt (by omega)
      rw [hi, ih, hex_row_u64_eq data size base_addr i (by omega)]
    · rfl

/-- The loop started at row `k` makes one iteration for each row from `k` on. -/
theorem hex_rows_eq_flatMap (data : List Nat) (size base_addr fuel k : Nat)
    (h : size ≤ 16 * (k + fuel)) :
    memory_access.hex_rows fuel data size base_addr (16 * k) =
      (List.range' k ((size + 15) / 16 - k)).flatMap
        (fun r => memory_access.hex_row data size base_addr (16 * r)) := by
  induction fuel generalizing k with
  | zero =>
    have e : (size + 15) / 16 - k = 0 := by omega
    rw [e]
    rfl
  | succ fuel ih =>
    unfold memory_access.hex_rows
    split_ifs with hlt
    · have e16 : 16 * k + 16 = 16 * (k + 1) := by omega
      have e : (size + 15) / 16 - k = ((size + 15) / 16 - (k + 1)) + 1 := by omega
      rw [e16, ih (k + 1) (by omega), e, List.range'_succ, List.flatMap_cons]
    · have e : (size + 15) / 16 - k = 0 := by omega
      rw [e]
      rfl

/-- The dump is made of exactly `ceil (size / 16)` iterations of the outer loop, for
`i = 0, 16, 32, ...`. -/
theorem print_hex_dump_eq_flatMap (data : List Nat) (size base_addr : Nat) :
    memory_access.print_hex_dump data size base_addr =
      (List.range ((size + 15) / 16)).flatMap
        (fun r => memory_access.hex_row data size base_addr (16 * r)) := by
  have h := hex_rows_eq_flatMap data size base_addr size 0 (by omega)
  rw [Nat.mul_zero, Nat.sub_zero] at h
  rw [memory_access.print_hex_dump, h, List.range_eq_range']

/-- C13: for a buffer `data` of at least `size` bytes (each below 256) and a size that
leaves room for the last increment of the loop counter, `print_hex_dump (data, size,
base_addr)` only writes to the standard output; the loop computed with the arithmetic of
`size_t` ends and makes exactly `ceil (size / 16)` iterations, none for size 0; the text
written is the described dump: row `k` is two spaces, `0x`, `base_addr + 16 k` (as a
64-bit value) in 16 lowercase hexadecimal digits, `: `, sixteen columns holding the byte
`data[16 k + j]` in two lowercase hexadecimal digits and a space when `16 k + j < size`
and three spaces otherwise, with one more space after column 7, then ` |`, one character
for each byte of the row (the byte when it is printable ASCII, a dot otherwise), `|`
and a newline; the bytes shown are those at the indices `0` to `size - 1`, each once
and in order, that is `data[0..size)`; and no byte at an index `>= size` is read. -/
theorem C13_hex_dump_rows (data : List Nat) (size base_addr : Nat)
    (hbytes : ∀ b ∈ data, b < 256) (hlen : size ≤ data.length)
    (hsize : size + 16 ≤ 2 ^ 64) :
    (∀ extra : Nat, memory_access.hex_rows_u64 (size + extra) data size base_addr 0 =
      memory_access.print_hex_dump data size base_addr) ∧
    (∀ e ∈ memory_access.print_hex_dump data size base_addr, e.isOut = true) ∧
    memory_access.print_hex_dump data size base_addr =
      (List.range ((size + 15) / 16)).flatMap
        (fun k => memory_access.hex_row data size base_addr (16 * k)) ∧
    (size = 0 → memory_access.print_hex_dump data size base_addr = []) ∧
    stdout_chars (memory_access.print_hex_dump data size base_addr) =
      memory_access.described_dump data size base_addr ∧
    (List.range ((size + 15) / 16)).flatMap (memory_access.row_indices size) =
      List.range size ∧
    (List.range size).map (fun idx => data.getD idx 0) = data.take size ∧
    (∀ data' : List Nat, data'.take size = data.take size →
      memory_access.print_hex_dump data' size base_addr =
        memory_access.print_hex_dump data size base_addr) := by
  refine ⟨?_, isOut_hex_rows _ _ _ _ _, print_hex_dump_eq_flatMap data size base_addr, ?_,
    stdout_chars_print_hex_dump data hbytes size base_addr, row_indices_cover size,
    map_getD_range data size hlen, ?_⟩
  · intro extra
    rw [hex_rows_u64_eq data size base_addr hsize, print_hex_dump_eq_hex_rows extra]
  · intro h0
    subst h0
    rfl
  · intro data' h
    rw [← print_hex_dump_take data', ← print_hex_dump_take data, h]

theorem C13_hex_dump_rows_witness :
    stdout_chars (memory_access.print_hex_dump [72, 101, 108, 108, 111, 0, 255, 10] 8 4096) =
      "  0x0000000000001000: 48 65 6c 6c 6f 00 ff 0a                           |Hello...|\n".data :=
  (C13_hex_dump_rows [72, 101, 108, 108, 111, 0, 255, 10] 8 4096 (by decide) (by decide)
    (by decide)).2.2.2.2.1.trans (by decide)

/-! ### C14: the argument checks of `memory_access` -/

/-- C14: in `memory_access`, with fewer than three arguments (`argc < 4`), and with at
least three arguments whose parsed size is greater than 1048576, `main` returns 1 and
its run consists of text output only: no kernel call is made.  With at least three
arguments and a parsed size of at most 1048576 (so for exactly 1048576, and for 0) the
check passes and the first call of the run is `task_for_pid`. -/
theorem C14_size_check_before_any_call :
    (∀ env : memory_access.Env, env.argv.length < 4 →
      (memory_access.main env).status = 1 ∧
      ∀ e ∈ (memory_access.main env).trace, e.isText = true) ∧
    (∀ env : memory_access.Env, 4 ≤ env.argv.length →
      env.strtoull (argvAt env.argv 3) > 1048576 →
      (memory_access.main env).status = 1 ∧
      ∀ e ∈ (memory_access.main env).trace, e.isText = true) ∧
    (∀ env : memory_access.Env, 4 ≤ env.argv.length →
      env.strtoull (argvAt env.argv 3) ≤ 1048576 →
      first_call (memory_access.main env).trace =
        some (Event.task_for_pid env.self (env.atoi (argvAt env.argv 1)) env.tfp_kr
          env.task)) ∧
    (∀ env : memory_access.Env, 4 ≤ env.argv.length →
      (env.strtoull (argvAt env.argv 3) = 1048576 ∨ env.strtoull (argvAt env.argv 3) = 0) →
      Event.task_for_pid env.self (env.atoi (argvAt env.argv 1)) env.tfp_kr env.task ∈
        (memory_access.main env).trace) := by
  refine ⟨?_, ?_, ?_, ?_⟩
  · intro env h
    simp [memory_access.main, h, Event.isText]
  · intro env h1 h2
    have h1' : ¬ env.argv.length < 4 := by omega
    have h2' : env.strtoull (argvAt env.argv 3) > 1024 * 1024 := by omega
    simp [memory_access.main, h1', h2', Event.isText]
  · intro env h1 h2
    have h1' : ¬ env.argv.length < 4 := by omega
    have h2' : ¬ env.strtoull (argvAt env.argv 3) > 1024 * 1024 := by omega
    simp [memory_access.main, h1', h2', Run.after, first_call, List.filter_cons, Event.isText]
  · intro env h1 h2
    have h1' : ¬ env.argv.length < 4 := by omega
    have h2' : ¬ env.strtoull (argvAt env.argv 3) > 1024 * 1024 := by omega
    simp [memory_access.main, h1', h2', Run.after]

theorem C14_size_check_before_any_call_witness :
    ((memory_access.main memory_access.too_large_env).status = 1 ∧
      ∀ e ∈ (memory_access.main memory_access.too_large_env).trace, e.isText = true) ∧
    first_call (memory_access.main memory_access.limit_env).trace =
      some (Event.task_for_pid 259 1234 5 5123) :=
  ⟨C14_size_check_before_any_call.2.1 memory_access.too_large_env (by decide) (by decide),
   C14_size_check_before_any_call.2.2.1 memory_access.limit_env (by decide) (by decide)⟩

/-! ### C15: the label of `print_status` -/

/-- C15, the code at the failing input: for the record `unknown_status_proc`, whose
status is 0, no `case` of the `switch` assigns `status` and `print_status` hands the
unassigned variable to `printf`; the same holds for every status outside 1..5, while
the statuses 1 to 5 print `IDLE`, `RUN`, `SLEEP`, `STOP` and `ZOMB` after ` status: `. -/
theorem C15_status_unassigned_outside_one_to_five :
    pidinfo.status_label pidinfo.unknown_status_proc = none ∧
    pidinfo.print_status pidinfo.unknown_status_proc = none ∧
    (∀ proc : pidinfo.proc_bsdshortinfo,
      pidinfo.print_status proc = none ↔ ¬ (1 ≤ proc.pbsi_status ∧ proc.pbsi_status ≤ 5)) ∧
    (∀ proc : pidinfo.proc_bsdshortinfo,
      (proc.pbsi_status = 1 → pidinfo.print_status proc = some [Event.out " status: IDLE\n"]) ∧
      (proc.pbsi_status = 2 → pidinfo.print_status proc = some [Event.out " status: RUN\n"]) ∧
      (proc.pbsi_status = 3 → pidinfo.print_status proc = some [Event.out " status: SLEEP\n"]) ∧
      (proc.pbsi_status = 4 → pidinfo.print_status proc = some [Event.out " status: STOP\n"]) ∧
      (proc.pbsi_status = 5 → pidinfo.print_status proc = some [Event.out " status: ZOMB\n"])) := by
  refine ⟨by decide, by decide, ?_, ?_⟩
  · intro proc
    unfold pidinfo.print_status pidinfo.status_label
    simp only [pidinfo.SIDL, pidinfo.SRUN, pidinfo.SSLEEP, pidinfo.SSTOP]
    constructor
    · intro h
      split_ifs at h with h1 h2 h3 h4 h5
      all_goals first | (simp at h; done) | omega
    · intro h
      have h1 : ¬ proc.pbsi_status = 1 := by omega
      have h2 : ¬ proc.pbsi_status = 2 := by omega
      have h3 : ¬ proc.pbsi_status = 3 := by omega
      have h4 : ¬ proc.pbsi_status = 4 := by omega
      have h5 : ¬ proc.pbsi_status = 5 := by omega
      simp [h1, h2, h3, h4, h5]
  · intro proc
    refine ⟨?_, ?_, ?_, ?_, ?_⟩ <;> intro h <;>
      simp [pidinfo.print_status, pidinfo.status_label, pidinfo.SIDL, pidinfo.SRUN,
        pidinfo.SSLEEP, pidinfo.SSTOP, h]
